import Mathlib

/-!
# Verification of the Copiloto-ID identity-and-behaviour inference engine

Shallow embedding, over exact rational arithmetic, of the components of the
driver-monitoring program that the specification's claims are about:

* `face_processor.py`  — `compare_embeddings` / `find_match` (identity matcher);
* `nod_detector.py`    — `NodDetector.update` / `_detect_nodding`;
* `fatigue_processor.py` — `PausaActivaHandler`, `FatigueProcessor` (facial
  metrics, per-frame event detection);
* `gui.py`             — the session state machine handlers
  (`_handle_listening_state`, the MONITORING-state presence/logout logic,
  `_logout_user`, and the exception structure of `process_frame`);
* `pose_estimator.py`  — `is_pose_acceptable`.

Python floats are modelled as `ℚ`; the opaque numeric primitives `math.sqrt`
and `math.pi` (whose exact values never decide a guard before they are used)
are passed in as parameters.  Fallible code is modelled with `Except`/`Option`;
an IEEE division whose denominator is exactly zero (which numpy maps to a
non-finite `inf`/`nan` rather than an exception) is modelled as `Option.none`.
-/

namespace Spec2Proof

/-! ## Identity matcher (`face_processor.py`, `compare_embeddings` / `find_match`) -/

/-- Dot product of two embedding vectors (`np.dot`), the cosine similarity of
two unit-norm vectors. -/
def dotQ (a b : List ℚ) : ℚ :=
  (List.zipWith (· * ·) a b).sum

/-- One entry of `known_embs_data`: a dict with `user_id` and `embedding`
(`codigo_usuario` and the other metadata fields are irrelevant to matching and
omitted). -/
structure KnownEmb where
  userId : Nat
  embedding : List ℚ
  deriving Repr, DecidableEq

/-- The linear scan of `find_match`: the accumulator is the pair
(`best_match_user_data`, `highest_similarity`); `best_match_user_data` is
updated only inside the `similarity > highest_similarity` branch and only when
additionally `similarity >= threshold`. -/
def findLoop (qv : List ℚ) (threshold : ℚ) :
    List KnownEmb → Option KnownEmb × ℚ → Option KnownEmb × ℚ
  | [], acc => acc
  | u :: rest, (best, highest) =>
      let sim := dotQ qv u.embedding
      if highest < sim then
        findLoop qv threshold rest ((if threshold ≤ sim then some u else best), sim)
      else
        findLoop qv threshold rest (best, highest)

/-- `FaceProcessor.find_match`: returns `(None, 0.0)` when the query embedding
is absent or the known list is empty, otherwise runs the linear scan with
`best_match_user_data = None`, `highest_similarity = -1.0`. -/
def find_match (q : Option (List ℚ)) (known : List KnownEmb) (threshold : ℚ) :
    Option KnownEmb × ℚ :=
  match q with
  | none => (none, 0)
  | some qv =>
      if known.isEmpty then (none, 0)
      else findLoop qv threshold known (none, -1)

/-- The identity-matching contract exactly as the specification words it
(§4.2/§8): report the true maximum similarity over all candidates, return the
user owning the maximum-similarity embedding iff that maximum is ≥ threshold,
first embedding winning ties. -/
def find_match_spec (qv : List ℚ) (known : List KnownEmb) (threshold : ℚ) :
    Option KnownEmb × ℚ :=
  match known with
  | [] => (none, 0)
  | u0 :: rest =>
      let best := (rest.map fun u => dotQ qv u.embedding).foldl max (dotQ qv u0.embedding)
      ((if threshold ≤ best then
          (u0 :: rest).find? fun u => decide (best ≤ dotQ qv u.embedding)
        else none), best)

/-! ## Pose acceptability (`pose_estimator.py`) -/

/-- `PoseEstimator.is_pose_acceptable`: a pure threshold check of the head
angles against the configured per-axis maxima (`pose_limits`). -/
structure PoseLimits where
  maxAbsPitch : ℚ
  maxAbsYaw : ℚ
  maxAbsRoll : ℚ

def is_pose_acceptable (pitch yaw roll : ℚ) (lim : PoseLimits) : Bool :=
  decide (|pitch| ≤ lim.maxAbsPitch) && decide (|yaw| ≤ lim.maxAbsYaw) &&
    decide (|roll| ≤ lim.maxAbsRoll)

/-! ## Session state machine (`gui.py`) -/

/-- The five values of `self.app_state`. -/
inductive AppState
  | LISTENING | IDENTIFYING | AUTO_REGISTERING | MONITORING | REPOSO
  deriving Repr, DecidableEq

/-- `state_machine_thresholds` from the configuration. -/
structure StateMachineThresholds where
  stableFaceFramesToIdentify : Nat
  faceLostFramesToLogout : Nat
  deriving Repr, DecidableEq

/-- The session-machine slice of `MainWindow`'s mutable state:
`self.app_state`, the two frame counters of `self.state_timers`, and
`self.current_user_id` (`current_user_code` and the remaining timers are
irrelevant to the claims and omitted). -/
structure SessionState where
  appState : AppState
  stableFaceCounter : Nat
  faceLostCounter : Nat
  currentUserId : Option Nat
  deriving Repr, DecidableEq

/-- A LISTENING frame is acceptable when a face is detected and the estimated
pose is within limits (`gui.py` line 644). -/
def frame_acceptable (lim : PoseLimits) (faceDetected : Bool)
    (poseData : Option (ℚ × ℚ × ℚ)) : Bool :=
  faceDetected &&
    (match poseData with
     | some (p, y, r) => is_pose_acceptable p y r lim
     | none => false)

/-- `MainWindow._handle_listening_state` (`gui.py` lines 639–653): on an
acceptable frame increment the stable-face counter and move to IDENTIFYING
once it reaches `stable_face_frames_to_identify` (resetting the counter);
on any other frame reset the counter to 0. -/
def handle_listening_state (cfg : StateMachineThresholds) (lim : PoseLimits)
    (s : SessionState) (faceDetected : Bool) (poseData : Option (ℚ × ℚ × ℚ)) :
    SessionState :=
  if frame_acceptable lim faceDetected poseData then
    let c := s.stableFaceCounter + 1
    if cfg.stableFaceFramesToIdentify ≤ c then
      { s with appState := .IDENTIFYING, stableFaceCounter := 0 }
    else { s with stableFaceCounter := c }
  else { s with stableFaceCounter := 0 }

/-- `MainWindow._logout_user` (`gui.py` lines 840–860, the session-closing
logic): unbind the current user, return to LISTENING and zero the face-lost
counter (the session-report flush, fatigue-state reset and GUI updates have no
effect on the session machine). -/
def logout_user (s : SessionState) : SessionState :=
  { s with currentUserId := none, appState := .LISTENING, faceLostCounter := 0 }

/-- Modelled from the spec: the complete MONITORING-state per-frame
presence/logout logic.  Its body is `gui.py` lines 862–870 verbatim (increment
`face_lost_counter` while the user is absent, call `_logout_user` once the
counter exceeds `face_lost_frames_to_logout`, reset the counter to 0 on a
present frame); in the source that block has been textually fused into
`_logout_user`, and the enclosing handler's header — and with it the
computation of `is_user_present` — is missing.  `is_user_present` is modelled
from spec §4.1 ("face absent (and body absent, if pose stream available)"),
matching `is_user_present = face_detected or pose_detected` as computed in
`PausaActivaHandler.update`.  The rest of the complete handler (calibration,
enrichment, fatigue inference, `gui.py` lines 872–965) mutates none of the
fields modelled here. -/
def monitoring_presence_step (cfg : StateMachineThresholds) (s : SessionState)
    (faceDetected poseDetected : Bool) : SessionState :=
  let isUserPresent := faceDetected || poseDetected
  if !isUserPresent then
    let c := s.faceLostCounter + 1
    if cfg.faceLostFramesToLogout < c then logout_user { s with faceLostCounter := c }
    else { s with faceLostCounter := c }
  else { s with faceLostCounter := 0 }

/-- Iterated LISTENING frames: `listen_run cfg lim f s k` is the session state
after feeding frames `f 0, …, f (k-1)` (face-detected flag and pose data) to
`_handle_listening_state`. -/
def listen_run (cfg : StateMachineThresholds) (lim : PoseLimits)
    (f : ℕ → Bool × Option (ℚ × ℚ × ℚ)) (s : SessionState) : ℕ → SessionState
  | 0 => s
  | k + 1 =>
      handle_listening_state cfg lim (listen_run cfg lim f s k) (f k).1 (f k).2

/-! ## Nod detector (`nod_detector.py`) -/

/-- The configurable parameters of `NodDetector` with their defaults
(`consecutive_frames_threshold` is present in the config dict but never read
by the detection logic, so it is omitted). -/
structure NodConfig where
  windowSize : Nat := 20
  minFramesForAnalysis : Nat := 10
  yAngleThreshold : ℚ := 12
  yRecoveryThreshold : ℚ := 6
  minVelocityDps : ℚ := 100
  maxVelocityDps : ℚ := 800
  recoveryPatternWeight : ℚ := 3/2
  cooldownPeriodSecs : ℚ := 5

/-- The mutable state of `NodDetector`. -/
structure NodState where
  angleYHistory : List ℚ
  timestampHistory : List ℚ
  lastDetectionTime : ℚ
  riskScore : ℚ

/-- `NodDetector.reset` / the freshly-constructed detector. -/
def NodState.initial : NodState := ⟨[], [], 0, 0⟩

/-- The list of adjacent pairs of a list — `zip(l, l[1:])`. -/
def adjPairs {α : Type} (l : List α) : List (α × α) := List.zip l l.tail

/-- `np.diff`: the list of differences of adjacent elements. -/
def npDiff (l : List ℚ) : List ℚ := (adjPairs l).map fun p => p.2 - p.1

/-- Appending the new sample and trimming the window to `window_size`
(`self.angle_y_history.append(...)` followed by a single `pop(0)` when the
length exceeds the window). -/
def pushTrim (cfg : NodConfig) (l : List ℚ) (a : ℚ) : List ℚ :=
  let l' := l ++ [a]
  if cfg.windowSize < l'.length then l'.tail else l'

/-- Criterion 2 of `_detect_nodding`: two *consecutive* deltas of opposite
sign, both exceeding the recovery threshold in magnitude. -/
def nodRecovery (cfg : NodConfig) (deltaAngles : List ℚ) : Bool :=
  (adjPairs deltaAngles).any fun p =>
    decide (p.1 * p.2 < 0) && decide (cfg.yRecoveryThreshold < |p.1|) &&
      decide (cfg.yRecoveryThreshold < |p.2|)

/-- Criterion 1 of `_detect_nodding`: some frame-to-frame delta exceeds the
angle threshold (positive direction only) with implied angular speed
`|delta / dt|` strictly between the velocity bounds. -/
def nodLargeDip (cfg : NodConfig) (deltaAngles deltaTimes : List ℚ) : Bool :=
  (List.zip deltaAngles deltaTimes).any fun p =>
    let v := |p.1 / p.2|
    decide (cfg.yAngleThreshold < p.1) && decide (cfg.minVelocityDps < v) &&
      decide (v < cfg.maxVelocityDps)

/-- `NodDetector._detect_nodding`: deltas of the current window, timestamps
clipped below at `1e-6`, a nod iff dip ∧ recovery ∧ cooldown elapsed; on
declaration the risk score gains the pattern weight and the detection time is
recorded; the score is clamped to 10 in every branch. -/
def nodDetect (cfg : NodConfig) (s : NodState) (now : ℚ) :
    NodState × (Bool × ℚ) :=
  let deltaAngles := npDiff s.angleYHistory
  let deltaTimes := (npDiff s.timestampHistory).map fun dt => max (1/1000000) dt
  let largeDip := nodLargeDip cfg deltaAngles deltaTimes
  let recovery := nodRecovery cfg deltaAngles
  if largeDip && recovery then
    if cfg.cooldownPeriodSecs < now - s.lastDetectionTime then
      let risk := min 10 (s.riskScore + cfg.recoveryPatternWeight)
      ({ s with lastDetectionTime := now, riskScore := risk }, (true, risk))
    else
      let risk := min 10 s.riskScore
      ({ s with riskScore := risk }, (false, risk))
  else
    let risk := min 10 s.riskScore
    ({ s with riskScore := risk }, (false, risk))

/-- `NodDetector.update`: a `None` (or non-finite — unrepresentable in `ℚ`)
angle returns immediately; otherwise append the sample, trim the window, decay
the risk score by `0.01` (floored at 0), and run `_detect_nodding` only once
`min_frames_for_analysis` samples are available. -/
def nodUpdate (cfg : NodConfig) (s : NodState) (angleY : Option ℚ) (now : ℚ) :
    NodState × (Bool × ℚ) :=
  match angleY with
  | none => (s, (false, s.riskScore))
  | some a =>
      let hist := pushTrim cfg s.angleYHistory a
      let times :=
        if cfg.windowSize < (s.angleYHistory ++ [a]).length then
          (s.timestampHistory ++ [now]).tail
        else s.timestampHistory ++ [now]
      let risk := max 0 (s.riskScore - 1/100)
      let s' := { s with angleYHistory := hist, timestampHistory := times,
                         riskScore := risk }
      if hist.length < cfg.minFramesForAnalysis then (s', (false, risk))
      else nodDetect cfg s' now

/-- Feeding a list of `(angle, timestamp)` samples through `update`, collecting
the `is_nodding` outputs. -/
def nodRun (cfg : NodConfig) (s : NodState) : List (ℚ × ℚ) → List Bool
  | [] => []
  | (a, t) :: rest =>
      let r := nodUpdate cfg s (some a) t
      r.2.1 :: nodRun cfg r.1 rest

/-- The synthetic angle window of spec §8. -/
def nodClaimAngles : List ℚ :=
  [0, 0, 0, 0, 0, 0, 0, 0, 0, 0, 14, 14, -8, -8, 0, 0, 0, 0, 0, 0]

/-- Timestamps at 30 ms intervals starting from an arbitrary wall-clock
origin of 1000 s. -/
def sampleTimes (n : Nat) : List ℚ :=
  (List.range n).map fun k => 1000 + (3 * k) / 100

/-- The claim's experiment: the 20-sample window followed immediately by a
second identical window, 30 ms apart throughout. -/
def nodClaimSamples : List (ℚ × ℚ) :=
  List.zip (nodClaimAngles ++ nodClaimAngles) (sampleTimes 40)

/-! ## Exception structure of the per-frame pipeline (`gui.py`, `process_frame`)

`process_frame` dispatches on `self.app_state` to the four per-frame state
handlers with no surrounding `try/except`; only `_handle_identifying_state`
and `_execute_auto_registration` contain their own `try/except` blocks.  A
raised Python exception is modelled as `Except.error`. -/

/-- A Python exception relevant to the per-frame pipeline. -/
inductive PyError
  | attributeError (method : String)
  | unboundLocal (name : String)
  | collaborator (msg : String)
  deriving Repr, DecidableEq

/-- The methods the class `FatigueProcessor` actually defines
(`fatigue_processor.py` lines 108–320). -/
def fatigueProcessorMethods : List String :=
  ["__init__", "set_calibration", "reset_state", "_calculate_facial_metrics",
   "process_frame_for_calibration", "process_frame_for_inference"]

/-- Python attribute lookup of a method on a `FatigueProcessor` instance:
raises `AttributeError` when the class does not define it. -/
def callFatigueMethod (name : String) : Except PyError Unit :=
  if name ∈ fatigueProcessorMethods then .ok () else .error (.attributeError name)

/-- `MainWindow._handle_monitoring_state` (`gui.py` lines 733–780): after the
`hasattr(self, 'fatigue_processor')` guard, its first statement is
`self.fatigue_processor.update_face_detection_status(face_detected)` — a
method `FatigueProcessor` does not define, so the lookup raises
`AttributeError`; no `try/except` protects the body, so the remainder of the
handler (also unreachable: `handle_distraction` and a five-argument
`process_frame_for_inference` call) is never executed. -/
def handle_monitoring_state_exc (hasFatigueProcessor : Bool) (s : SessionState) :
    Except PyError SessionState :=
  if !hasFatigueProcessor then .ok s
  else do
    let _ ← callFatigueMethod "update_face_detection_status"
    .ok s

/-- The per-frame environment of `_handle_identifying_state`: the outcome of
each collaborator call its body makes (`gui.py` lines 662–704). `Option`
models a collaborator returning `None` (soft failure); `Except` models a
collaborator that may raise. -/
structure IdentifyEnv where
  limits : PoseLimits
  threshold : ℚ
  landmarksPresent : Bool
  poseData : Option (ℚ × ℚ × ℚ)
  alignOk : Bool
  embeddingOk : Bool
  queryEmb : List ℚ
  dbEmbeddings : Except PyError (List KnownEmb)
  logAccess : Except PyError Unit

/-- The body of `_handle_identifying_state` inside its `try:` block (plus the
landmarks guard before it, which cannot raise): each soft failure returns to
LISTENING; `db_manager` calls may raise; a match logs in the user
(`_login_user`: bind user, go to MONITORING), no match starts
AUTO_REGISTERING. -/
def handle_identifying_body (env : IdentifyEnv) (s : SessionState) :
    Except PyError SessionState :=
  if env.landmarksPresent = false then .ok { s with appState := .LISTENING }
  else
    match env.poseData with
    | none => .ok { s with appState := .LISTENING }
    | some (p, y, r) =>
        if !is_pose_acceptable p y r env.limits then .ok { s with appState := .LISTENING }
        else if env.alignOk = false then .ok { s with appState := .LISTENING }
        else if env.embeddingOk = false then .ok { s with appState := .LISTENING }
        else do
          let known ← env.dbEmbeddings
          match (find_match (some env.queryEmb) known env.threshold).1 with
          | some u => do
              let _ ← env.logAccess
              .ok { s with appState := .MONITORING, currentUserId := some u.userId }
          | none => do
              let _ ← env.logAccess
              .ok { s with appState := .AUTO_REGISTERING }

/-- `MainWindow._handle_identifying_state`: its body runs inside
`try: … except Exception: self.app_state = "LISTENING"` — every error is
caught at the handler boundary and mapped to LISTENING. -/
def handle_identifying_state (env : IdentifyEnv) (s : SessionState) : SessionState :=
  match handle_identifying_body env s with
  | .ok s' => s'
  | .error _ => { s with appState := .LISTENING }

/-- The per-frame environment of `_handle_auto_registering_state`
(`gui.py` lines 706–731 and `_execute_auto_registration` lines 782–812):
`poseOk` = pose present and acceptable this frame, `waitElapsed` =
`time_left <= 0`, `execBody` = outcome of the body of
`_execute_auto_registration` (`some id`: user created; `none`: align/
embedding/db returned nothing; `.error`: an unexpected exception inside it). -/
structure RegisterEnv where
  poseOk : Bool
  waitElapsed : Bool
  execBody : Except PyError (Option Nat)

/-- `MainWindow._handle_auto_registering_state`: abandon to LISTENING if the
pose is unacceptable; once the wait elapses run `_execute_auto_registration`,
whose own `try/except` maps an exception — like its soft failures — to
LISTENING, and whose success logs the new user in (MONITORING). -/
def handle_auto_registering_state (env : RegisterEnv) (s : SessionState) :
    SessionState :=
  if !env.poseOk then { s with appState := .LISTENING }
  else if env.waitElapsed then
    match env.execBody with
    | .ok (some uid) => { s with appState := .MONITORING, currentUserId := some uid }
    | .ok none => { s with appState := .LISTENING }
    | .error _ => { s with appState := .LISTENING }
  else s

/-- One frame's collaborator outcomes for the whole pipeline. -/
structure FrameEnv where
  faceDetected : Bool
  poseDetected : Bool
  poseData : Option (ℚ × ℚ × ℚ)
  identify : IdentifyEnv
  register : RegisterEnv
  hasFatigueProcessor : Bool

/-- The state-machine dispatch of `MainWindow.process_frame` (`gui.py` lines
1455–1466): no `try/except` surrounds the four handler calls, so an exception
escaping a handler propagates out of `process_frame`.  REPOSO processes
nothing. -/
def process_frame_step (cfg : StateMachineThresholds) (lim : PoseLimits)
    (env : FrameEnv) (s : SessionState) : Except PyError SessionState :=
  match s.appState with
  | .LISTENING => .ok (handle_listening_state cfg lim s env.faceDetected env.poseData)
  | .IDENTIFYING => .ok (handle_identifying_state env.identify s)
  | .AUTO_REGISTERING => .ok (handle_auto_registering_state env.register s)
  | .MONITORING => handle_monitoring_state_exc env.hasFatigueProcessor s
  | .REPOSO => .ok s

/-! ## Active-pause handler (`fatigue_processor.py`, `PausaActivaHandler`) -/

/-- The full state of a `PausaActivaHandler` instance, including its two
constructor parameters.  The Python float `0.95` is modelled as `19/20`.
(`pause_start_time` is tested with Python truthiness — `None` and the
never-occurring wall-clock `0.0` are both falsy; it is modelled as an
`Option`.) -/
structure PausaState where
  workDuration : ℚ
  resetThreshold : ℚ
  elapsedWorkTime : ℚ
  isPaused : Bool
  pauseStartTime : Option ℚ
  lastUpdateTime : ℚ
  lastPausaActivaTime : Option ℚ

/-- `PausaActivaHandler.__init__` at wall-clock time `now`. -/
def pausaInit (workDuration resetThreshold now : ℚ) : PausaState :=
  ⟨workDuration, resetThreshold, 0, true, none, now, none⟩

/-- `PausaActivaHandler.reset` at wall-clock time `now`. -/
def pausaReset (s : PausaState) (now : ℚ) : PausaState :=
  { s with elapsedWorkTime := 0, isPaused := true, pauseStartTime := none,
           lastUpdateTime := now, lastPausaActivaTime := some now }

/-- `int(max(0, work_duration - elapsed))`: Python `int()` truncates, which on
the guaranteed-non-negative argument is the floor. -/
def pausaRemaining (s : PausaState) : ℤ :=
  ⌊max 0 (s.workDuration - s.elapsedWorkTime)⌋

/-- `PausaActivaHandler.update`: accumulate work time while the user is
present (face or body), fire the reminder once the work duration is reached
(gated by the 95 %-of-cycle check against the previous reminder) and reset;
while absent, mark paused from the first absent call and reset the whole
counter once the continuous absence exceeds the reset threshold.  Returns
`((should_alert, seconds_remaining), new_state)`. -/
def pausaUpdate (s : PausaState) (faceDetected poseDetected : Bool) (now : ℚ) :
    (Bool × ℤ) × PausaState :=
  let delta := now - s.lastUpdateTime
  let s := { s with lastUpdateTime := now }
  let present := faceDetected || poseDetected
  if present then
    let s1 := if s.isPaused then { s with isPaused := false, pauseStartTime := none } else s
    let s2 := { s1 with elapsedWorkTime := s1.elapsedWorkTime + delta }
    let alertOk :=
      match s2.lastPausaActivaTime with
      | none => true
      | some b => decide (s2.workDuration * (19/20) < now - b)
    if decide (s2.workDuration ≤ s2.elapsedWorkTime) && alertOk then
      let s3 := pausaReset s2 now
      ((true, pausaRemaining s3), s3)
    else ((false, pausaRemaining s2), s2)
  else
    let s1 := if !s.isPaused then { s with isPaused := true, pauseStartTime := some now }
              else s
    let doReset :=
      match s1.pauseStartTime with
      | some ps => decide (s1.resetThreshold < now - ps)
      | none => false
    let s2 := if doReset then pausaReset s1 now else s1
    ((false, pausaRemaining s2), s2)

/-- A run of `update` calls with the user present throughout (face detected),
collecting `(should_alert, new_state)` per call. -/
def pausaRunPresent (s : PausaState) : List ℚ → List (Bool × PausaState)
  | [] => []
  | t :: ts =>
      let r := pausaUpdate s true false t
      (r.1.1, r.2) :: pausaRunPresent r.2 ts

/-- The alert pattern the specification describes for a continuously-present
user: an alert exactly when the current cycle (based at the last alert, or at
the start time) has lasted at least `work_duration` seconds, the cycle
rebasing at each alert. -/
def pausaSpecAlerts (wd : ℚ) : ℚ → List ℚ → List Bool
  | _, [] => []
  | base, t :: ts =>
      if wd ≤ t - base then true :: pausaSpecAlerts wd t ts
      else false :: pausaSpecAlerts wd base ts

/-- A run of `update` calls with the user absent throughout, returning the
final state. -/
def pausaRunAbsent (s : PausaState) : List ℚ → PausaState
  | [] => s
  | t :: ts => pausaRunAbsent (pausaUpdate s false false t).2 ts

/-- The in-cycle invariant of a continuously-present run: the accumulated work
time telescopes to `last_update − base` and the last-reminder timestamp is
absent or equal to the cycle base. -/
def PausaInv (b : ℚ) (s : PausaState) : Prop :=
  s.elapsedWorkTime = s.lastUpdateTime - b ∧
  (s.lastPausaActivaTime = none ∨ s.lastPausaActivaTime = some b)

/-! ## Fatigue processor (`fatigue_processor.py`, `FatigueProcessor`) -/

/-- `fatigue_detection_thresholds` with the `.get` defaults used in
`process_frame_for_inference` (`1.8 = 9/5`, `0.75 = 3/4`). -/
structure FatigueThresholds where
  distractionFramesThreshold : Nat := 30
  yawnFramesThreshold : Nat := 8
  maxAlertEyesClosedFrames : Nat := 60
  drowsinessEyesClosedFrames : Nat := 20
  eyeRubbingFrames : Nat := 15
  yawnMarFactor : ℚ := 9/5
  drowsinessEarFactor : ℚ := 3/4

/-- The calibration fields `process_frame_for_inference` and
`_calculate_facial_metrics` read (`cal_ear_mean`, `cal_mar_mean`). -/
structure CalibrationData where
  calEarMean : ℚ
  calMarMean : ℚ

/-- `FatigueProcessor.state` plus the owned `NodDetector` and
`PausaActivaHandler` states (`stretching_frames` / `last_stretching_time`
exist in the dict but are never read by `process_frame_for_inference` and are
omitted). -/
structure FatigueState where
  yawnFrames : Nat
  closedEyesFrames : Nat
  eyeRubbingFrames : Nat
  distractionFrames : Nat
  lastYawnTime : ℚ
  lastEyeRubTime : ℚ
  lastDistractionAlertTime : ℚ
  lastDespiertaAlertTime : ℚ
  nod : NodState
  pausa : PausaState

/-- `FatigueProcessor.reset_state` at wall-clock time `now`: all counters and
last-alert timestamps to 0, `NodDetector.reset`, `PausaActivaHandler.reset`. -/
def fatigueResetState (pausaPrev : PausaState) (now : ℚ) : FatigueState :=
  ⟨0, 0, 0, 0, 0, 0, 0, 0, NodState.initial, pausaReset pausaPrev now⟩

/-- One frame's inputs to `process_frame_for_inference`: the wall-clock time,
the face/pose detection flags, the metrics computed from the landmarks
(`ear`, `mar`), the vertical head angle from `calculate_head_angle`, the
`detect_eye_rubbing` result, and the optional LSTM classifier's presence and
prediction. -/
structure FrameInput where
  now : ℚ
  faceDetected : Bool
  poseDetected : Bool
  ear : ℚ
  mar : ℚ
  angleY : Option ℚ
  rubType : Nat
  lstmActive : Bool
  lstmPrediction : Option ℤ

/-- The distraction branch (face absent): increment the counter and emit
"Distraccion" above the threshold under a 5 s cooldown. -/
def distractionStep (th : FatigueThresholds) (s : FatigueState) (inp : FrameInput) :
    List String × FatigueState :=
  let dcount := s.distractionFrames + 1
  if th.distractionFramesThreshold < dcount then
    if decide (5 < inp.now - s.lastDistractionAlertTime) then
      (["Distraccion"],
        { s with distractionFrames := dcount, lastDistractionAlertTime := inp.now })
    else ([], { s with distractionFrames := dcount })
  else ([], { s with distractionFrames := dcount })

/-- The yawn branch: counter while `mar` exceeds the calibrated factor,
"Bostezar" above the frame threshold under a 10 s cooldown (counter reset on
emission and whenever the raw condition is false). -/
def yawnStep (th : FatigueThresholds) (cal : CalibrationData) (s : FatigueState)
    (inp : FrameInput) : List String × FatigueState :=
  if decide (cal.calMarMean * th.yawnMarFactor < inp.mar) then
    let yc := s.yawnFrames + 1
    if th.yawnFramesThreshold < yc then
      if decide (10 < inp.now - s.lastYawnTime) then
        (["Bostezar"], { s with yawnFrames := 0, lastYawnTime := inp.now })
      else ([], { s with yawnFrames := yc })
    else ([], { s with yawnFrames := yc })
  else ([], { s with yawnFrames := 0 })

/-- The eyes-closed branch: counter while `ear` is below the calibrated
threshold; above `MAX_ALERT_EYES_CLOSED_FRAMES` emit "Despierta" under a 5 s
cooldown, `elif` above `DROWSINESS_EYES_CLOSED_FRAMES` emit "Somnolencia"
(no cooldown); counter reset the instant the condition is false, never on
emission. -/
def eyesStep (th : FatigueThresholds) (cal : CalibrationData) (s : FatigueState)
    (inp : FrameInput) : List String × FatigueState :=
  if decide (inp.ear < cal.calEarMean * th.drowsinessEarFactor) then
    let cc := s.closedEyesFrames + 1
    if th.maxAlertEyesClosedFrames < cc then
      if decide (5 < inp.now - s.lastDespiertaAlertTime) then
        (["Despierta"],
          { s with closedEyesFrames := cc, lastDespiertaAlertTime := inp.now })
      else ([], { s with closedEyesFrames := cc })
    else
      if th.drowsinessEyesClosedFrames < cc then
        (["Somnolencia"], { s with closedEyesFrames := cc })
      else ([], { s with closedEyesFrames := cc })
  else ([], { s with closedEyesFrames := 0 })

/-- The nod branch: `nod_detector.update(angle_y or 0.0)`; a detection emits
"Cabeceo". -/
def nodStep (ncfg : NodConfig) (s : FatigueState) (inp : FrameInput) :
    List String × FatigueState :=
  let nr := nodUpdate ncfg s.nod (some (inp.angleY.getD 0)) inp.now
  ((if nr.2.1 then ["Cabeceo"] else []), { s with nod := nr.1 })

/-- The eye-rubbing branch: counter while `detect_eye_rubbing` reports a
positive type, "Frotar Ojos" above the threshold under a 10 s cooldown
(counter not reset on emission). -/
def rubStep (th : FatigueThresholds) (s : FatigueState) (inp : FrameInput) :
    List String × FatigueState :=
  if 0 < inp.rubType then
    let rc := s.eyeRubbingFrames + 1
    if th.eyeRubbingFrames < rc then
      if decide (10 < inp.now - s.lastEyeRubTime) then
        (["Frotar Ojos"],
          { s with eyeRubbingFrames := rc, lastEyeRubTime := inp.now })
      else ([], { s with eyeRubbingFrames := rc })
    else ([], { s with eyeRubbingFrames := rc })
  else ([], { s with eyeRubbingFrames := 0 })

/-- `FatigueProcessor.process_frame_for_inference`, with the metrics passed in
as already computed (their derivation from the landmarks is
`calculate_facial_metrics` below).  The Python builds one `detected_events`
list in the order pausa → distraction → (lstm) → yawn → eyes → nod → rub and
finally returns `list(set(...))`; each branch appends its event at most once
per frame, so the returned collection is the concatenation below up to
`set`'s (irrelevant) ordering.  The LSTM block: a prediction of `1` evaluates
`current_time`, a local that is only assigned *later* in the function, so that
path raises `UnboundLocalError`; any other prediction adds nothing.  When no
calibration is set, the accumulated events are discarded and exactly
`["AWAITING_CALIBRATION"]` is returned — but the pause handler has already
been updated (and possibly reset) by this same call. -/
def process_frame_for_inference (th : FatigueThresholds) (ncfg : NodConfig)
    (calibration : Option CalibrationData) (s : FatigueState) (inp : FrameInput) :
    Except PyError (List String × FatigueState) :=
  let pr := pausaUpdate s.pausa inp.faceDetected inp.poseDetected inp.now
  let ev0 : List String := if pr.1.1 then ["Pausa Activa"] else []
  let s0 := { s with pausa := pr.2 }
  if inp.faceDetected = false then
    let d := distractionStep th s0 inp
    .ok (ev0 ++ d.1, d.2)
  else
    let s1 := { s0 with distractionFrames := 0 }
    if inp.lstmActive && decide (inp.lstmPrediction = some 1) then
      .error (.unboundLocal "current_time")
    else
      match calibration with
      | none => .ok (["AWAITING_CALIBRATION"], s1)
      | some cal =>
          let y := yawnStep th cal s1 inp
          let e := eyesStep th cal y.2 inp
          let n := nodStep ncfg e.2 inp
          let r := rubStep th n.2 inp
          .ok (ev0 ++ y.1 ++ e.1 ++ n.1 ++ r.1, r.2)

/-- The state after feeding frames `f 0, …, f (k-1)` (an error, which never
occurs under the claims' hypotheses, is absorbed). -/
def fatigueRunState (th : FatigueThresholds) (ncfg : NodConfig)
    (calibration : Option CalibrationData) (s : FatigueState)
    (f : ℕ → FrameInput) : ℕ → Except PyError FatigueState
  | 0 => .ok s
  | k + 1 =>
      match fatigueRunState th ncfg calibration s f k with
      | .error e => .error e
      | .ok sk =>
          match process_frame_for_inference th ncfg calibration sk (f k) with
          | .error e => .error e
          | .ok (_, sk') => .ok sk'

/-- The events emitted at frame `k` of the run (empty on error). -/
def fatigueStepEvents (th : FatigueThresholds) (ncfg : NodConfig)
    (calibration : Option CalibrationData) (s : FatigueState)
    (f : ℕ → FrameInput) (k : ℕ) : List String :=
  match fatigueRunState th ncfg calibration s f k with
  | .error _ => []
  | .ok sk =>
      match process_frame_for_inference th ncfg calibration sk (f k) with
      | .error _ => []
      | .ok (ev, _) => ev

/-! ## Facial metric extraction (`fatigue_processor.py`,
`_calculate_facial_metrics`)

The opaque numeric primitives are parameters: `sq : ℚ → ℚ` stands for the
composition `math.sqrt`/`np.linalg.norm` (applied to the sum of squared
coordinate differences) and `piQ : ℚ` for the float `math.pi`.  No guard in
the source inspects their values before using them, so every guard fact below
holds for all instantiations.  A numpy float division whose denominator is
exactly `0.0` yields a non-finite `inf`/`nan` (not an exception), modelled as
`Option.none`. -/

/-- The guard tolerance `1e-6` used throughout `_calculate_facial_metrics`. -/
def eps6 : ℚ := 1/1000000

/-- The scaled 2-D landmark array `lm_np` (`(lm.x*w, lm.y*h)` per landmark):
a count plus an indexing function. -/
structure Landmarks where
  count : Nat
  pt : Nat → ℚ × ℚ

/-- `np.linalg.norm(p1 - p2)` with the square root abstracted. -/
def distQ (sq : ℚ → ℚ) (p q : ℚ × ℚ) : ℚ :=
  sq ((p.1 - q.1) ^ 2 + (p.2 - q.2) ^ 2)

/-- numpy float division: a zero denominator yields a non-finite value. -/
def npDivide (a b : ℚ) : Option ℚ :=
  if b = 0 then none else some (a / b)

/-- `_eye_aspect_ratio`: `(A + B) / (2C)` guarded to 0 when the horizontal
distance `C` is not above `1e-6`. -/
def eye_aspect_ratio (sq : ℚ → ℚ) (e0 e1 e2 e3 e4 e5 : ℚ × ℚ) : ℚ :=
  let A := distQ sq e1 e5
  let B := distQ sq e2 e4
  let C := distQ sq e0 e3
  if decide (eps6 < C) then (A + B) / (2 * C) else 0

/-- `_calculate_circularity`: degenerate radii or a degenerate Ramanujan
perimeter give 0, otherwise `4π·area/perimeter²` clipped to `[0, 1]`. -/
def calculate_circularity (piQ : ℚ) (sq : ℚ → ℚ) (i1 i2 i3 i4 : ℚ × ℚ) : ℚ :=
  let hr := distQ sq i2 i4 / 2
  let vr := distQ sq i1 i3 / 2
  if decide (hr < eps6) || decide (vr < eps6) then 0
  else
    let area := piQ * hr * vr
    let perimeter := piQ * (3 * (hr + vr) - sq ((3 * hr + vr) * (hr + 3 * vr)))
    if decide (perimeter < eps6) then 0
    else min 1 (max 0 ((4 * piQ * area) / perimeter ^ 2))

/-- The result of `_calculate_facial_metrics` (`landmarks_np` aside): `none`
marks a non-finite float. -/
structure FaceMetrics where
  ear : ℚ
  mar : Option ℚ
  puc : ℚ
  moe : Option ℚ

/-- `FatigueProcessor._calculate_facial_metrics`.  EAR averages the two
guarded per-eye ratios; MAR is the *unguarded* division
`‖lm[61]-lm[291]‖ / ‖lm[0]-lm[17]‖`; PUC uses the iris rings at indices
468–477 (an `IndexError` — fewer than 478 landmarks — is caught and gives 0),
averaging the two circularities when both are positive, else their max; MOE
is MAR/EAR (normalised by the calibration means when available), guarded
against an eye denominator not above `1e-6`. -/
def calculate_facial_metrics (piQ : ℚ) (sq : ℚ → ℚ) (lm : Landmarks)
    (cal : Option CalibrationData) : FaceMetrics :=
  let ear := (eye_aspect_ratio sq (lm.pt 362) (lm.pt 385) (lm.pt 387) (lm.pt 263)
                (lm.pt 373) (lm.pt 380)
            + eye_aspect_ratio sq (lm.pt 33) (lm.pt 160) (lm.pt 158) (lm.pt 133)
                (lm.pt 153) (lm.pt 144)) / 2
  let mar := npDivide (distQ sq (lm.pt 61) (lm.pt 291)) (distQ sq (lm.pt 0) (lm.pt 17))
  let puc :=
    if lm.count ≤ 477 then 0
    else
      let pucRight := calculate_circularity piQ sq (lm.pt 474) (lm.pt 475) (lm.pt 476)
        (lm.pt 477)
      let pucLeft := calculate_circularity piQ sq (lm.pt 469) (lm.pt 470) (lm.pt 471)
        (lm.pt 472)
      if decide (0 < pucRight) && decide (0 < pucLeft) then (pucRight + pucLeft) / 2
      else max pucRight pucLeft
  let moe :=
    match cal with
    | some c =>
        let earNorm := if decide (eps6 < c.calEarMean) then ear / c.calEarMean else 1
        let marNorm : Option ℚ :=
          if decide (eps6 < c.calMarMean) then mar.map (· / c.calMarMean)
          else some 1
        match marNorm with
        | none => none
        | some mn => some (if decide (eps6 < earNorm) then mn / earNorm else mn)
    | none =>
        match mar with
        | none => none
        | some m => some (if decide (eps6 < ear) then m / ear else m)
  { ear := ear, mar := mar, puc := puc, moe := moe }

/-! ## Theorems -/

lemma le_foldl_max (l : List ℚ) (h : ℚ) : h ≤ l.foldl max h := by
  induction l generalizing h with
  | nil => simp
  | cons x xs ih => exact le_trans (le_max_left h x) (ih (max h x))

lemma foldl_max_snd (qv : List ℚ) (θ : ℚ) (l : List KnownEmb)
    (best : Option KnownEmb) (h : ℚ) :
    (findLoop qv θ l (best, h)).2 =
      (l.map fun u => dotQ qv u.embedding).foldl max h := by
  induction l generalizing best h with
  | nil => simp [findLoop]
  | cons u rest ih =>
      simp only [findLoop, List.map_cons, List.foldl_cons]
      by_cases hlt : h < dotQ qv u.embedding
      · simp only [hlt, if_true]
        rw [ih, max_eq_right (le_of_lt hlt)]
      · simp only [hlt, if_false]
        rw [ih, max_eq_left (le_of_not_lt hlt)]

lemma foldl_max_fst (qv : List ℚ) (θ : ℚ) (l : List KnownEmb)
    (best : Option KnownEmb) (h : ℚ) :
    (findLoop qv θ l (best, h)).1 =
      if h < (l.map fun u => dotQ qv u.embedding).foldl max h ∧
          θ ≤ (l.map fun u => dotQ qv u.embedding).foldl max h then
        l.find? fun u =>
          decide ((l.map fun u => dotQ qv u.embedding).foldl max h ≤ dotQ qv u.embedding)
      else best := by
  induction l generalizing best h with
  | nil => simp [findLoop]
  | cons u rest ih =>
      set s := dotQ qv u.embedding with hs
      have hM : ((u :: rest).map fun v => dotQ qv v.embedding).foldl max h
          = (rest.map fun v => dotQ qv v.embedding).foldl max (max h s) := by
        simp [hs]
      by_cases hlt : h < s
      · have hmax : max h s = s := max_eq_right (le_of_lt hlt)
        set M := (rest.map fun v => dotQ qv v.embedding).foldl max s with hMdef
        have hsM : s ≤ M := le_foldl_max _ s
        have hhM : h < M := lt_of_lt_of_le hlt hsM
        have hMeq : ((u :: rest).map fun v => dotQ qv v.embedding).foldl max h = M := by
          rw [hM, hmax]
        simp only [findLoop, ← hs, hlt, if_true]
        rw [ih, hMeq]
        rcases eq_or_lt_of_le hsM with hsMeq | hsMlt
        · -- the head attains the overall maximum: the recursive call cannot improve
          have hcond : ¬ (s < (rest.map fun v => dotQ qv v.embedding).foldl max s) := by
            rw [← hMdef, ← hsMeq]; exact lt_irrefl s
          simp only [← hMdef, hcond, false_and, if_false]
          have hfind : ((u :: rest).find? fun v => decide (M ≤ dotQ qv v.embedding))
              = some u := by
            simp [List.find?, ← hs, ← hsMeq]
          by_cases hθ : θ ≤ M
          · have hθs : θ ≤ s := by rw [hsMeq]; exact hθ
            simp only [hhM, hθ, and_true, if_true, hfind, ← hsMeq, ← hs]
            simp [hlt, hθs]
          · simp only [hθ, and_false, if_false]
            have : ¬ θ ≤ s := by rw [hsMeq]; exact hθ
            simp [this]
        · -- the tail strictly exceeds the head similarity
          have hcond : s < (rest.map fun v => dotQ qv v.embedding).foldl max s := by
            rw [← hMdef]; exact hsMlt
          simp only [← hMdef, hcond, true_and, hhM]
          have hfind : ((u :: rest).find? fun v => decide (M ≤ dotQ qv v.embedding))
              = rest.find? fun v => decide (M ≤ dotQ qv v.embedding) := by
            have : ¬ (M ≤ s) := not_le_of_lt hsMlt
            simp [List.find?, ← hs, this]
          by_cases hθ : θ ≤ M
          · simp [hθ, hfind]
          · have hθs : ¬ θ ≤ s := fun hc => hθ (le_trans hc hsM)
            simp [hθ, hθs]
      · have hmax : max h s = h := max_eq_left (le_of_not_lt hlt)
        have hMeq : ((u :: rest).map fun v => dotQ qv v.embedding).foldl max h
            = (rest.map fun v => dotQ qv v.embedding).foldl max h := by
          rw [hM, hmax]
        simp only [findLoop, ← hs, hlt, if_false]
        rw [ih, hMeq]
        set M := (rest.map fun v => dotQ qv v.embedding).foldl max h with hMdef
        by_cases hcond : h < M ∧ θ ≤ M
        · have hfind : ((u :: rest).find? fun v => decide (M ≤ dotQ qv v.embedding))
              = rest.find? fun v => decide (M ≤ dotQ qv v.embedding) := by
            have hsM : ¬ (M ≤ s) := fun hc =>
              absurd (lt_of_lt_of_le hcond.1 hc) hlt
            simp [List.find?, ← hs, hsM]
          simp [hcond, hfind]
        · simp [hcond]

/-- C3 (counterexample): with the unit-norm query `[1]`, a single stored
unit-norm embedding `[-1]` and threshold `-1`, the true maximum cosine
similarity is `-1 ≥ threshold`, yet `find_match` returns no user (the running
maximum is initialised to `-1.0` and the threshold test only runs on a strict
improvement), so "non-None user iff maximum ≥ threshold" is false here. -/
theorem find_match_claim_false :
    find_match_spec [1] [⟨7, [-1]⟩] (-1) = (some ⟨7, [-1]⟩, -1) ∧
    find_match (some [1]) [⟨7, [-1]⟩] (-1) = (none, -1) ∧
    ¬ (((find_match (some [1]) [⟨7, [-1]⟩] (-1)).1 ≠ none) ↔
        ((-1 : ℚ) ≤ (find_match_spec [1] [⟨7, [-1]⟩] (-1)).2)) := by
  have h1 : find_match_spec [1] [⟨7, [-1]⟩] (-1) = (some ⟨7, [-1]⟩, -1) := by
    norm_num [find_match_spec, dotQ, List.find?]
  have h2 : find_match (some [1]) [⟨7, [-1]⟩] (-1) = (none, -1) := by
    norm_num [find_match, findLoop, dotQ]
  refine ⟨h1, h2, ?_⟩
  rw [h1, h2]
  norm_num

/-- C3 (amended): provided every candidate similarity is at least `-1` (true
for unit-norm embeddings) and the threshold is greater than `-1`, `find_match`
realises the specification contract `find_match_spec` exactly: the reported
similarity is the true maximum over all candidates, a user is returned iff
that maximum is ≥ threshold (then the owner of the first maximum-similarity
embedding), and an absent query or empty known list yields `(none, 0)`. -/
theorem find_match_correct (qv : List ℚ) (known : List KnownEmb) (θ : ℚ)
    (hsim : ∀ u ∈ known, (-1 : ℚ) ≤ dotQ qv u.embedding) (hθ : (-1 : ℚ) < θ) :
    find_match (some qv) known θ = find_match_spec qv known θ ∧
    find_match none known θ = (none, 0) ∧
    find_match (some qv) [] θ = (none, 0) := by
  refine ⟨?_, rfl, rfl⟩
  cases known with
  | nil => rfl
  | cons u0 rest =>
      have hseed : ((u0 :: rest).map fun u => dotQ qv u.embedding).foldl max (-1)
          = (rest.map fun u => dotQ qv u.embedding).foldl max (dotQ qv u0.embedding) := by
        simp only [List.map_cons, List.foldl_cons]
        rw [max_eq_right (hsim u0 (by simp))]
      have hloop : find_match (some qv) (u0 :: rest) θ
          = findLoop qv θ (u0 :: rest) (none, -1) := by
        simp [find_match]
      set M := (rest.map fun u => dotQ qv u.embedding).foldl max (dotQ qv u0.embedding)
        with hMdef
      have h2 := foldl_max_snd qv θ (u0 :: rest) none (-1)
      have h1 := foldl_max_fst qv θ (u0 :: rest) none (-1)
      rw [hseed] at h1 h2
      apply Prod.ext
      · rw [hloop, h1]
        show _ = if θ ≤ M then (u0 :: rest).find? fun u => decide (M ≤ dotQ qv u.embedding)
          else none
        by_cases hθM : θ ≤ M
        · have : (-1 : ℚ) < M := lt_of_lt_of_le hθ hθM
          simp [hθM, this]
        · simp [hθM]
      · rw [hloop, h2]
        rfl

/-- C3 (witness): a concrete two-candidate query exercising
`find_match_correct`; the second candidate wins with similarity 1 ≥ 3/4. -/
theorem find_match_correct_witness :
    (∀ u ∈ [(⟨1, [1/2]⟩ : KnownEmb), ⟨2, [1]⟩], (-1 : ℚ) ≤ dotQ [1] u.embedding) ∧
    ((-1 : ℚ) < 3/4) ∧
    (find_match (some [1]) [⟨1, [1/2]⟩, ⟨2, [1]⟩] (3/4)
        = find_match_spec [1] [⟨1, [1/2]⟩, ⟨2, [1]⟩] (3/4) ∧
      find_match none [⟨1, [1/2]⟩, ⟨2, [1]⟩] (3/4) = (none, 0) ∧
      find_match (some [1]) [] (3/4) = (none, 0)) :=
  ⟨by intro u hu; fin_cases hu <;> norm_num [dotQ], by norm_num,
    find_match_correct [1] [⟨1, [1/2]⟩, ⟨2, [1]⟩] (3/4)
      (by intro u hu; fin_cases hu <;> norm_num [dotQ]) (by norm_num)⟩

lemma listen_run_inv (cfg : StateMachineThresholds) (lim : PoseLimits)
    (f : ℕ → Bool × Option (ℚ × ℚ × ℚ)) (s : SessionState)
    (h0 : s.appState = .LISTENING) (hc : s.stableFaceCounter = 0)
    (k : ℕ) (hk : k < cfg.stableFaceFramesToIdentify)
    (hacc : ∀ j < k, frame_acceptable lim (f j).1 (f j).2 = true) :
    (listen_run cfg lim f s k).appState = .LISTENING ∧
    (listen_run cfg lim f s k).stableFaceCounter = k := by
  induction k with
  | zero => exact ⟨h0, hc⟩
  | succ k ih =>
      have hk' : k < cfg.stableFaceFramesToIdentify := Nat.lt_of_succ_lt hk
      obtain ⟨hst, hctr⟩ := ih hk' (fun j hj => hacc j (Nat.lt_succ_of_lt hj))
      have hca := hacc k (Nat.lt_succ_self k)
      simp only [listen_run, handle_listening_state, hca, if_true, hctr]
      have : ¬ cfg.stableFaceFramesToIdentify ≤ k + 1 := Nat.not_le_of_lt hk
      simp [this, hst]

/-- C5: from LISTENING with a zeroed stable-face counter and
`N = stable_face_frames_to_identify ≥ 1`: feeding `N - 1` consecutive frames
with a detected face and acceptable pose followed by one unacceptable frame
does not transition to IDENTIFYING and resets the stable counter to 0, while
`N` consecutive acceptable frames transition to IDENTIFYING. -/
theorem listening_transition_correct (cfg : StateMachineThresholds)
    (lim : PoseLimits) (hN : 1 ≤ cfg.stableFaceFramesToIdentify)
    (s : SessionState) (h0 : s.appState = .LISTENING) (hc : s.stableFaceCounter = 0)
    (f g : ℕ → Bool × Option (ℚ × ℚ × ℚ))
    (hf : ∀ j < cfg.stableFaceFramesToIdentify - 1,
      frame_acceptable lim (f j).1 (f j).2 = true)
    (hfbad : frame_acceptable lim (f (cfg.stableFaceFramesToIdentify - 1)).1
      (f (cfg.stableFaceFramesToIdentify - 1)).2 = false)
    (hg : ∀ j < cfg.stableFaceFramesToIdentify,
      frame_acceptable lim (g j).1 (g j).2 = true) :
    ((listen_run cfg lim f s cfg.stableFaceFramesToIdentify).appState = .LISTENING ∧
     (listen_run cfg lim f s cfg.stableFaceFramesToIdentify).stableFaceCounter = 0) ∧
    (listen_run cfg lim g s cfg.stableFaceFramesToIdentify).appState = .IDENTIFYING := by
  obtain ⟨m, hm⟩ : ∃ m, cfg.stableFaceFramesToIdentify = m + 1 :=
    ⟨cfg.stableFaceFramesToIdentify - 1, (Nat.succ_pred_eq_of_pos hN).symm⟩
  have hm1 : cfg.stableFaceFramesToIdentify - 1 = m := by omega
  have hmlt : m < cfg.stableFaceFramesToIdentify := by omega
  constructor
  · obtain ⟨hst, hctr⟩ := listen_run_inv cfg lim f s h0 hc m hmlt
      (fun j hj => hf j (by omega))
    rw [hm]
    simp only [listen_run, handle_listening_state]
    rw [hm1] at hfbad
    simp [hfbad, hst, hctr]
  · obtain ⟨hst, hctr⟩ := listen_run_inv cfg lim g s h0 hc m hmlt
      (fun j hj => hg j (by omega))
    rw [hm]
    simp only [listen_run, handle_listening_state]
    have hacc := hg m hmlt
    have : cfg.stableFaceFramesToIdentify ≤ m + 1 := by omega
    simp [hacc, hctr, this]

/-- C5 (witness): `N = 2`, pose limits all 0, acceptable frames have pose
`(0,0,0)`; one acceptable frame followed by a no-face frame stays LISTENING,
two acceptable frames reach IDENTIFYING. -/
theorem listening_transition_correct_witness :
    (1 ≤ (StateMachineThresholds.mk 2 0).stableFaceFramesToIdentify) ∧
    (((listen_run ⟨2, 0⟩ ⟨0, 0, 0⟩
        (fun j => if j = 0 then (true, some (0, 0, 0)) else (false, none))
        ⟨.LISTENING, 0, 0, none⟩ 2).appState = .LISTENING ∧
      (listen_run ⟨2, 0⟩ ⟨0, 0, 0⟩
        (fun j => if j = 0 then (true, some (0, 0, 0)) else (false, none))
        ⟨.LISTENING, 0, 0, none⟩ 2).stableFaceCounter = 0) ∧
     (listen_run ⟨2, 0⟩ ⟨0, 0, 0⟩ (fun _ => (true, some (0, 0, 0)))
        ⟨.LISTENING, 0, 0, none⟩ 2).appState = .IDENTIFYING) := by
  refine ⟨by decide, ?_⟩
  exact listening_transition_correct ⟨2, 0⟩ ⟨0, 0, 0⟩ (by decide)
    ⟨.LISTENING, 0, 0, none⟩ rfl rfl
    (fun j => if j = 0 then (true, some (0, 0, 0)) else (false, none))
    (fun _ => (true, some (0, 0, 0)))
    (by intro j hj
        interval_cases j
        simp [frame_acceptable, is_pose_acceptable])
    (by simp [frame_acceptable])
    (by intro j hj
        simp [frame_acceptable, is_pose_acceptable])

/-- C1: in MONITORING with a zeroed face-lost counter, absence of both face
and body for `face_lost_frames_to_logout + 1` consecutive frames (i.e. more
than the threshold) transitions to LISTENING and unbinds the current user —
and not one frame earlier; any frame in which the user is present (face or
body) resets the face-lost counter to 0 and changes nothing else. -/
theorem monitoring_logout_correct (cfg : StateMachineThresholds)
    (s : SessionState) (hmon : s.appState = .MONITORING)
    (hctr : s.faceLostCounter = 0) :
    (∀ k ≤ cfg.faceLostFramesToLogout,
      ((fun t => monitoring_presence_step cfg t false false)^[k] s).appState
          = .MONITORING ∧
      ((fun t => monitoring_presence_step cfg t false false)^[k] s).faceLostCounter = k ∧
      ((fun t => monitoring_presence_step cfg t false false)^[k] s).currentUserId
          = s.currentUserId) ∧
    (((fun t => monitoring_presence_step cfg t false false)^[cfg.faceLostFramesToLogout + 1] s).appState
        = .LISTENING ∧
     ((fun t => monitoring_presence_step cfg t false false)^[cfg.faceLostFramesToLogout + 1] s).currentUserId
        = none) ∧
    (∀ (t : SessionState) (fd pd : Bool), (fd || pd) = true →
      monitoring_presence_step cfg t fd pd = { t with faceLostCounter := 0 }) := by
  have habs : ∀ k ≤ cfg.faceLostFramesToLogout,
      ((fun t => monitoring_presence_step cfg t false false)^[k] s).appState
          = .MONITORING ∧
      ((fun t => monitoring_presence_step cfg t false false)^[k] s).faceLostCounter = k ∧
      ((fun t => monitoring_presence_step cfg t false false)^[k] s).currentUserId
          = s.currentUserId := by
    intro k hk
    induction k with
    | zero => exact ⟨hmon, hctr, rfl⟩
    | succ k ih =>
        obtain ⟨h1, h2, h3⟩ := ih (by omega)
        rw [Function.iterate_succ_apply']
        generalize hgen : (fun t => monitoring_presence_step cfg t false false)^[k] s
          = t at h1 h2 h3 ⊢
        have hlt : ¬ cfg.faceLostFramesToLogout < k + 1 := by omega
        simp [monitoring_presence_step, h2, hlt, h1, h3]
  refine ⟨habs, ?_, ?_⟩
  · obtain ⟨h1, h2, h3⟩ := habs cfg.faceLostFramesToLogout le_rfl
    rw [Function.iterate_succ_apply']
    generalize hgen :
      (fun t => monitoring_presence_step cfg t false false)^[cfg.faceLostFramesToLogout] s
        = t at h1 h2 h3 ⊢
    have hlt : cfg.faceLostFramesToLogout < cfg.faceLostFramesToLogout + 1 := by omega
    simp [monitoring_presence_step, h2, hlt, logout_user]
  · intro t fd pd hp
    simp [monitoring_presence_step, hp]

/-- C1 (witness): threshold 2, user 5 bound: two absent frames stay in
MONITORING, the third logs out and unbinds; a present frame zeroes the
counter. -/
theorem monitoring_logout_correct_witness :
    ((∀ k ≤ (StateMachineThresholds.mk 3 2).faceLostFramesToLogout,
      ((fun t => monitoring_presence_step ⟨3, 2⟩ t false false)^[k]
          ⟨.MONITORING, 0, 0, some 5⟩).appState = .MONITORING ∧
      ((fun t => monitoring_presence_step ⟨3, 2⟩ t false false)^[k]
          ⟨.MONITORING, 0, 0, some 5⟩).faceLostCounter = k ∧
      ((fun t => monitoring_presence_step ⟨3, 2⟩ t false false)^[k]
          ⟨.MONITORING, 0, 0, some 5⟩).currentUserId
          = (SessionState.mk .MONITORING 0 0 (some 5)).currentUserId) ∧
    (((fun t => monitoring_presence_step ⟨3, 2⟩ t false false)^[3]
        ⟨.MONITORING, 0, 0, some 5⟩).appState = .LISTENING ∧
     ((fun t => monitoring_presence_step ⟨3, 2⟩ t false false)^[3]
        ⟨.MONITORING, 0, 0, some 5⟩).currentUserId = none) ∧
    (∀ (t : SessionState) (fd pd : Bool), (fd || pd) = true →
      monitoring_presence_step ⟨3, 2⟩ t fd pd = { t with faceLostCounter := 0 })) :=
  monitoring_logout_correct ⟨3, 2⟩ ⟨.MONITORING, 0, 0, some 5⟩ rfl rfl

/-- C2 (counterexample): with the fatigue processor present (it is constructed
unconditionally in `MainWindow.__init__`), a frame processed in MONITORING
raises `AttributeError("update_face_detection_status")` inside
`_handle_monitoring_state`, and `process_frame` propagates it — so it is false
that every per-frame state handler catches unexpected exceptions at its
boundary and that processing a frame never propagates an exception. -/
theorem process_frame_exception_escapes :
    process_frame_step ⟨3, 2⟩ ⟨20, 25, 20⟩
      ⟨false, false, none,
        ⟨⟨20, 25, 20⟩, 1/2, false, none, false, false, [], .ok [], .ok ()⟩,
        ⟨false, false, .ok none⟩, true⟩
      ⟨.MONITORING, 0, 0, some 5⟩
      = .error (.attributeError "update_face_detection_status") := rfl

/-- C2 (amended): the exception boundaries the code actually has: the
IDENTIFYING handler catches every error of its body and maps it to LISTENING,
and `_execute_auto_registration`'s `try/except` likewise maps an exception to
LISTENING, so frames dispatched in LISTENING, IDENTIFYING, AUTO_REGISTERING
and REPOSO never propagate an exception; but the MONITORING handler has no
boundary and (with the fatigue processor present) always raises
`AttributeError`, which propagates out of `process_frame`. -/
theorem process_frame_exception_boundaries (cfg : StateMachineThresholds)
    (lim : PoseLimits) (env : FrameEnv) (s : SessionState) :
    (∀ e, handle_identifying_body env.identify s = .error e →
      handle_identifying_state env.identify s = { s with appState := .LISTENING }) ∧
    (∀ e, env.register.poseOk = true → env.register.waitElapsed = true →
      env.register.execBody = .error e →
      handle_auto_registering_state env.register s = { s with appState := .LISTENING }) ∧
    (s.appState ≠ .MONITORING → ∃ s', process_frame_step cfg lim env s = .ok s') ∧
    (s.appState = .MONITORING → env.hasFatigueProcessor = true →
      process_frame_step cfg lim env s
        = .error (.attributeError "update_face_detection_status")) := by
  refine ⟨?_, ?_, ?_, ?_⟩
  · intro e he
    simp [handle_identifying_state, he]
  · intro e hp hw he
    simp [handle_auto_registering_state, hp, hw, he]
  · intro hne
    cases h : s.appState
    case MONITORING => exact absurd h hne
    all_goals simp [process_frame_step, h]
  · intro hm hf
    simp only [process_frame_step, hm, handle_monitoring_state_exc, hf,
      callFatigueMethod, fatigueProcessorMethods]
    rfl

/-- C2 (amended, witness): a concrete erroring identification body is caught
(LISTENING), a concrete erroring registration body is caught (LISTENING), a
LISTENING frame yields a state rather than an exception, and a MONITORING
frame yields the uncaught `AttributeError`. -/
theorem process_frame_exception_boundaries_witness :
    ((∀ e, handle_identifying_body
        ⟨⟨0, 0, 0⟩, 1/2, true, some (0, 0, 0), true, true, [1],
          .error (.collaborator "db down"), .ok ()⟩ ⟨.IDENTIFYING, 0, 0, none⟩
        = .error e →
      handle_identifying_state
        ⟨⟨0, 0, 0⟩, 1/2, true, some (0, 0, 0), true, true, [1],
          .error (.collaborator "db down"), .ok ()⟩ ⟨.IDENTIFYING, 0, 0, none⟩
        = { SessionState.mk .IDENTIFYING 0 0 none with appState := .LISTENING }) ∧
    (∀ e, (RegisterEnv.mk true true (.error (.collaborator "db down"))).poseOk = true →
      (RegisterEnv.mk true true (.error (.collaborator "db down"))).waitElapsed = true →
      (RegisterEnv.mk true true (.error (.collaborator "db down"))).execBody = .error e →
      handle_auto_registering_state ⟨true, true, .error (.collaborator "db down")⟩
          ⟨.IDENTIFYING, 0, 0, none⟩
        = { SessionState.mk .IDENTIFYING 0 0 none with appState := .LISTENING }) ∧
    ((SessionState.mk .IDENTIFYING 0 0 none).appState ≠ .MONITORING →
      ∃ s', process_frame_step ⟨3, 2⟩ ⟨0, 0, 0⟩
        ⟨false, false, none,
          ⟨⟨0, 0, 0⟩, 1/2, true, some (0, 0, 0), true, true, [1],
            .error (.collaborator "db down"), .ok ()⟩,
          ⟨true, true, .error (.collaborator "db down")⟩, true⟩
        ⟨.IDENTIFYING, 0, 0, none⟩ = .ok s') ∧
    ((SessionState.mk .IDENTIFYING 0 0 none).appState = .MONITORING →
      (FrameEnv.mk false false none
          ⟨⟨0, 0, 0⟩, 1/2, true, some (0, 0, 0), true, true, [1],
            .error (.collaborator "db down"), .ok ()⟩
          ⟨true, true, .error (.collaborator "db down")⟩ true).hasFatigueProcessor = true →
      process_frame_step ⟨3, 2⟩ ⟨0, 0, 0⟩
        ⟨false, false, none,
          ⟨⟨0, 0, 0⟩, 1/2, true, some (0, 0, 0), true, true, [1],
            .error (.collaborator "db down"), .ok ()⟩,
          ⟨true, true, .error (.collaborator "db down")⟩, true⟩
        ⟨.IDENTIFYING, 0, 0, none⟩
        = .error (.attributeError "update_face_detection_status"))) :=
  process_frame_exception_boundaries ⟨3, 2⟩ ⟨0, 0, 0⟩
    ⟨false, false, none,
      ⟨⟨0, 0, 0⟩, 1/2, true, some (0, 0, 0), true, true, [1],
        .error (.collaborator "db down"), .ok ()⟩,
      ⟨true, true, .error (.collaborator "db down")⟩, true⟩
    ⟨.IDENTIFYING, 0, 0, none⟩

/-! ### Nod detector (C4) -/

lemma adjPairs_cons_cons {α : Type} (a b : α) (l : List α) :
    adjPairs (a :: b :: l) = (a, b) :: adjPairs (b :: l) := rfl

lemma adjPairs_append_right {α : Type} (m v : List α) :
    adjPairs m <+: adjPairs (m ++ v) := by
  induction m with
  | nil => exact ⟨adjPairs v, by simp [adjPairs]⟩
  | cons a m ih =>
      cases m with
      | nil => exact ⟨adjPairs ([a] ++ v), by rfl⟩
      | cons b t =>
          obtain ⟨w, hw⟩ := ih
          refine ⟨w, ?_⟩
          have : (a :: b :: t) ++ v = a :: b :: (t ++ v) := by simp
          rw [this, adjPairs_cons_cons, adjPairs_cons_cons]
          have hbt : (b :: t) ++ v = b :: (t ++ v) := by simp
          rw [← hbt, ← hw]
          simp

lemma adjPairs_append_left {α : Type} (u m : List α) :
    adjPairs m <:+ adjPairs (u ++ m) := by
  induction u with
  | nil => exact ⟨[], rfl⟩
  | cons x u ih =>
      cases hcase : u ++ m with
      | nil =>
          obtain ⟨hu, hm⟩ := List.append_eq_nil.mp hcase
          subst hm
          exact ⟨adjPairs ((x :: u) ++ []), by simp [adjPairs]⟩
      | cons y ys =>
          obtain ⟨s, hs⟩ := ih
          refine ⟨(x, y) :: s, ?_⟩
          have h1 : (x :: u) ++ m = x :: y :: ys := by rw [List.cons_append, hcase]
          rw [h1, adjPairs_cons_cons, ← hcase, List.cons_append, hs]

lemma adjPairs_contig {α : Type} {m l : List α} (h : m <:+: l) :
    adjPairs m <:+: adjPairs l := by
  obtain ⟨u, v, rfl⟩ := h
  obtain ⟨w, hw⟩ := adjPairs_append_right m v
  obtain ⟨s, hs⟩ := adjPairs_append_left u (m ++ v)
  refine ⟨s, w, ?_⟩
  rw [List.append_assoc u m v, ← hs, ← hw]
  simp

lemma npDiff_contig {m l : List ℚ} (h : m <:+: l) : npDiff m <:+: npDiff l := by
  obtain ⟨s, w, hsw⟩ := adjPairs_contig h
  refine ⟨s.map fun p => p.2 - p.1, w.map fun p => p.2 - p.1, ?_⟩
  rw [npDiff, npDiff, ← hsw]
  simp

lemma nodRecovery_false_of (cfg : NodConfig) {m full : List ℚ}
    (hm : m <:+: full) (hall : nodRecovery cfg (npDiff full) = false) :
    nodRecovery cfg (npDiff m) = false := by
  rw [nodRecovery, List.any_eq_false] at hall ⊢
  intro p hp
  exact hall p ((adjPairs_contig (npDiff_contig hm)).subset hp)

lemma nodUpdate_hist (cfg : NodConfig) (s : NodState) (a now : ℚ) :
    ((nodUpdate cfg s (some a) now).1).angleYHistory
      = pushTrim cfg s.angleYHistory a := by
  simp only [nodUpdate]
  split
  · rfl
  · simp only [nodDetect]
    repeat' split
    all_goals rfl

lemma nodUpdate_false (cfg : NodConfig) (s : NodState) (a now : ℚ)
    (h : nodRecovery cfg (npDiff (pushTrim cfg s.angleYHistory a)) = false) :
    (nodUpdate cfg s (some a) now).2.1 = false := by
  simp only [nodUpdate]
  split
  · rfl
  · simp only [nodDetect, h, Bool.and_false]
    rfl

lemma nodRun_all_false (cfg : NodConfig) (full : List ℚ)
    (hall : nodRecovery cfg (npDiff full) = false) :
    ∀ (samples : List (ℚ × ℚ)) (s : NodState) (pre : List ℚ),
      s.angleYHistory <:+ pre → pre ++ samples.map Prod.fst = full →
      nodRun cfg s samples = List.replicate samples.length false := by
  intro samples
  induction samples with
  | nil => intro s pre _ _; rfl
  | cons st rest ih =>
      intro s pre hsuf hfull
      obtain ⟨a, t⟩ := st
      obtain ⟨w, hw⟩ := hsuf
      have h1 : s.angleYHistory ++ [a] <:+ pre ++ [a] :=
        ⟨w, by rw [← List.append_assoc, hw]⟩
      have hsuf' : (nodUpdate cfg s (some a) t).1.angleYHistory <:+ pre ++ [a] := by
        rw [nodUpdate_hist, pushTrim]
        split
        · exact (List.tail_suffix _).trans h1
        · exact h1
      have hpre : (pre ++ [a]) <+: full := by
        refine ⟨rest.map Prod.fst, ?_⟩
        simpa using hfull
      have hinf : (nodUpdate cfg s (some a) t).1.angleYHistory <:+: full := by
        obtain ⟨w1, hw1⟩ := hsuf'
        obtain ⟨w2, hw2⟩ := hpre
        refine ⟨w1, w2, ?_⟩
        rw [hw1]
        exact hw2
      have hout : (nodUpdate cfg s (some a) t).2.1 = false := by
        apply nodUpdate_false
        rw [← nodUpdate_hist cfg s a t]
        exact nodRecovery_false_of cfg hinf hall
      have hrest : (pre ++ [a]) ++ rest.map Prod.fst = full := by
        simpa using hfull
      simp only [nodRun, hout, List.length_cons, List.replicate_succ]
      exact congrArg (false :: ·)
        (ih (nodUpdate cfg s (some a) t).1 (pre ++ [a]) hsuf' hrest)

lemma nodRecovery_claim :
    nodRecovery ({} : NodConfig) (npDiff (nodClaimAngles ++ nodClaimAngles))
      = false := by
  norm_num [nodRecovery, npDiff, adjPairs, nodClaimAngles]

lemma nodRun_claim_all_false :
    nodRun {} NodState.initial nodClaimSamples = List.replicate 40 false := by
  have hmap : nodClaimSamples.map Prod.fst = nodClaimAngles ++ nodClaimAngles := by
    rw [nodClaimSamples]
    exact List.map_fst_zip _ _ (by decide)
  have hlen : nodClaimSamples.length = 40 := by decide
  have := nodRun_all_false {} (nodClaimAngles ++ nodClaimAngles)
    nodRecovery_claim nodClaimSamples NodState.initial [] ⟨[], rfl⟩
    (by simpa using hmap)
  rw [this, hlen]

/-- C4 (counterexample): feeding the spec's angle sequence
`[0,…,0,14,14,-8,-8,0,…,0]` at 30 ms intervals to a default-configured
detector yields `is_nodding = False` on all 20 updates — not True exactly
once: the deltas `+14` and `-22` are separated by a zero delta, so no two
*consecutive* deltas have opposite sign and the recovery criterion never
holds. -/
theorem nod_claim_false :
    ¬ (((nodRun {} NodState.initial nodClaimSamples).take 20).count true = 1) := by
  rw [nodRun_claim_all_false]
  decide

/-- C4 (amended): on the spec's synthetic sequence the detector reports
`is_nodding = False` on every one of the 20 updates (the dip criterion is met
but the recovery criterion — two consecutive opposite-sign deltas exceeding
6° — never is), and the second identical sequence fed within the cooldown
window likewise yields `False` on every update. -/
theorem nod_claim_amended :
    nodRun {} NodState.initial nodClaimSamples = List.replicate 40 false ∧
    ((nodRun {} NodState.initial nodClaimSamples).take 20).count true = 0 ∧
    ((nodRun {} NodState.initial nodClaimSamples).drop 20).count true = 0 := by
  refine ⟨nodRun_claim_all_false, ?_, ?_⟩ <;> rw [nodRun_claim_all_false] <;> decide

/-! ### Awaiting-calibration early return (C10) -/

/-- C10 (counterexample): with a face detected, no calibration set, and the
optional LSTM classifier present and predicting 1, the call does not return
`["AWAITING_CALIBRATION"]` — it raises `UnboundLocalError` (`current_time` is
referenced in the LSTM block before its assignment later in the function). -/
theorem awaiting_calibration_claim_false :
    process_frame_for_inference {} {} none
      (fatigueResetState (pausaInit 3600 180 0) 0)
      ⟨10, true, false, 0, 0, none, 0, true, some 1⟩
      = .error (.unboundLocal "current_time") := rfl

/-- C10 (amended): whenever a face is detected, no calibration profile is set,
and the LSTM branch does not fault (classifier absent or prediction ≠ 1),
`process_frame_for_inference` returns exactly `["AWAITING_CALIBRATION"]` —
any pause-activa event raised earlier in the call is omitted — and the
returned state carries the already-updated (possibly reset) pause handler and
the zeroed distraction counter. -/
theorem awaiting_calibration_amended (th : FatigueThresholds) (ncfg : NodConfig)
    (s : FatigueState) (inp : FrameInput)
    (hface : inp.faceDetected = true)
    (hlstm : (inp.lstmActive && decide (inp.lstmPrediction = some 1)) = false) :
    process_frame_for_inference th ncfg none s inp
      = .ok (["AWAITING_CALIBRATION"],
          { s with
              pausa := (pausaUpdate s.pausa inp.faceDetected inp.poseDetected inp.now).2,
              distractionFrames := 0 }) := by
  simp [process_frame_for_inference, hface, hlstm]

/-- C10 (witness): a pause handler 9 s into a 10 s cycle and an update 2 s
later — the pause alert fires and its cycle is reset inside the call, yet the
returned event list is exactly `["AWAITING_CALIBRATION"]`. -/
theorem awaiting_calibration_amended_witness :
    ((FrameInput.mk 2 true false 0 0 none 0 false none).faceDetected = true) ∧
    (((FrameInput.mk 2 true false 0 0 none 0 false none).lstmActive &&
        decide ((FrameInput.mk 2 true false 0 0 none 0 false none).lstmPrediction
          = some 1)) = false) ∧
    (process_frame_for_inference {} {} none
        ⟨0, 0, 0, 0, 0, 0, 0, 0, NodState.initial, ⟨10, 180, 9, false, none, 0, none⟩⟩
        ⟨2, true, false, 0, 0, none, 0, false, none⟩
      = .ok (["AWAITING_CALIBRATION"],
          { (⟨0, 0, 0, 0, 0, 0, 0, 0, NodState.initial,
              ⟨10, 180, 9, false, none, 0, none⟩⟩ : FatigueState) with
              pausa := (pausaUpdate ⟨10, 180, 9, false, none, 0, none⟩ true false 2).2,
              distractionFrames := 0 })) :=
  ⟨rfl, rfl,
    awaiting_calibration_amended {} {}
      ⟨0, 0, 0, 0, 0, 0, 0, 0, NodState.initial, ⟨10, 180, 9, false, none, 0, none⟩⟩
      ⟨2, true, false, 0, 0, none, 0, false, none⟩ rfl rfl⟩

/-! ### Eyes-closed escalation (C6, C7) -/

lemma yawnStep_closedEyes (th : FatigueThresholds) (cal : CalibrationData)
    (s : FatigueState) (inp : FrameInput) :
    (yawnStep th cal s inp).2.closedEyesFrames = s.closedEyesFrames := by
  simp only [yawnStep]; repeat' split
  all_goals rfl

lemma yawnStep_lastDesp (th : FatigueThresholds) (cal : CalibrationData)
    (s : FatigueState) (inp : FrameInput) :
    (yawnStep th cal s inp).2.lastDespiertaAlertTime = s.lastDespiertaAlertTime := by
  simp only [yawnStep]; repeat' split
  all_goals rfl

lemma yawnStep_not_despierta (th : FatigueThresholds) (cal : CalibrationData)
    (s : FatigueState) (inp : FrameInput) :
    "Despierta" ∉ (yawnStep th cal s inp).1 := by
  simp only [yawnStep]; repeat' split
  all_goals simp

lemma yawnStep_not_somnolencia (th : FatigueThresholds) (cal : CalibrationData)
    (s : FatigueState) (inp : FrameInput) :
    "Somnolencia" ∉ (yawnStep th cal s inp).1 := by
  simp only [yawnStep]; repeat' split
  all_goals simp

lemma nodStep_closedEyes (ncfg : NodConfig) (s : FatigueState) (inp : FrameInput) :
    (nodStep ncfg s inp).2.closedEyesFrames = s.closedEyesFrames := rfl

lemma nodStep_lastDesp (ncfg : NodConfig) (s : FatigueState) (inp : FrameInput) :
    (nodStep ncfg s inp).2.lastDespiertaAlertTime = s.lastDespiertaAlertTime := rfl

lemma nodStep_not_despierta (ncfg : NodConfig) (s : FatigueState) (inp : FrameInput) :
    "Despierta" ∉ (nodStep ncfg s inp).1 := by
  simp only [nodStep]; split
  all_goals simp

lemma nodStep_not_somnolencia (ncfg : NodConfig) (s : FatigueState) (inp : FrameInput) :
    "Somnolencia" ∉ (nodStep ncfg s inp).1 := by
  simp only [nodStep]; split
  all_goals simp

lemma rubStep_closedEyes (th : FatigueThresholds) (s : FatigueState) (inp : FrameInput) :
    (rubStep th s inp).2.closedEyesFrames = s.closedEyesFrames := by
  simp only [rubStep]; repeat' split
  all_goals rfl

lemma rubStep_lastDesp (th : FatigueThresholds) (s : FatigueState) (inp : FrameInput) :
    (rubStep th s inp).2.lastDespiertaAlertTime = s.lastDespiertaAlertTime := by
  simp only [rubStep]; repeat' split
  all_goals rfl

lemma rubStep_not_despierta (th : FatigueThresholds) (s : FatigueState) (inp : FrameInput) :
    "Despierta" ∉ (rubStep th s inp).1 := by
  simp only [rubStep]; repeat' split
  all_goals simp

lemma rubStep_not_somnolencia (th : FatigueThresholds) (s : FatigueState) (inp : FrameInput) :
    "Somnolencia" ∉ (rubStep th s inp).1 := by
  simp only [rubStep]; repeat' split
  all_goals simp

lemma eyesStep_low (th : FatigueThresholds) (cal : CalibrationData)
    (s : FatigueState) (inp : FrameInput)
    (hear : inp.ear < cal.calEarMean * th.drowsinessEarFactor) :
    (eyesStep th cal s inp).2.closedEyesFrames = s.closedEyesFrames + 1 ∧
    (eyesStep th cal s inp).2.lastDespiertaAlertTime =
      (if th.maxAlertEyesClosedFrames < s.closedEyesFrames + 1 ∧
          5 < inp.now - s.lastDespiertaAlertTime then inp.now
       else s.lastDespiertaAlertTime) ∧
    ("Despierta" ∈ (eyesStep th cal s inp).1 ↔
      th.maxAlertEyesClosedFrames < s.closedEyesFrames + 1 ∧
        5 < inp.now - s.lastDespiertaAlertTime) ∧
    ("Somnolencia" ∈ (eyesStep th cal s inp).1 ↔
      ¬ th.maxAlertEyesClosedFrames < s.closedEyesFrames + 1 ∧
        th.drowsinessEyesClosedFrames < s.closedEyesFrames + 1) := by
  have hc : decide (inp.ear < cal.calEarMean * th.drowsinessEarFactor) = true :=
    decide_eq_true hear
  simp only [eyesStep, hc]
  by_cases hM : th.maxAlertEyesClosedFrames < s.closedEyesFrames + 1
  · by_cases h5 : (5 : ℚ) < inp.now - s.lastDespiertaAlertTime
    · simp [hM, h5]
    · simp [hM, h5]
  · by_cases hD : th.drowsinessEyesClosedFrames < s.closedEyesFrames + 1
    · simp [hM, hD]
    · simp [hM, hD]

lemma eyesStep_high (th : FatigueThresholds) (cal : CalibrationData)
    (s : FatigueState) (inp : FrameInput)
    (hear : ¬ inp.ear < cal.calEarMean * th.drowsinessEarFactor) :
    eyesStep th cal s inp = ([], { s with closedEyesFrames := 0 }) := by
  simp [eyesStep, hear]

lemma process_step_eyes_low (th : FatigueThresholds) (ncfg : NodConfig)
    (cal : CalibrationData) (s : FatigueState) (inp : FrameInput)
    (hface : inp.faceDetected = true) (hlstm : inp.lstmActive = false)
    (hear : inp.ear < cal.calEarMean * th.drowsinessEarFactor) :
    ∃ ev s',
      process_frame_for_inference th ncfg (some cal) s inp = .ok (ev, s') ∧
      s'.closedEyesFrames = s.closedEyesFrames + 1 ∧
      s'.lastDespiertaAlertTime =
        (if th.maxAlertEyesClosedFrames < s.closedEyesFrames + 1 ∧
            5 < inp.now - s.lastDespiertaAlertTime then inp.now
         else s.lastDespiertaAlertTime) ∧
      ("Despierta" ∈ ev ↔
        th.maxAlertEyesClosedFrames < s.closedEyesFrames + 1 ∧
          5 < inp.now - s.lastDespiertaAlertTime) ∧
      ("Somnolencia" ∈ ev ↔
        ¬ th.maxAlertEyesClosedFrames < s.closedEyesFrames + 1 ∧
          th.drowsinessEyesClosedFrames < s.closedEyesFrames + 1) := by
  have hface' : ¬ (inp.faceDetected = false) := by simp [hface]
  have hlstm' : ¬ ((inp.lstmActive && decide (inp.lstmPrediction = some 1)) = true) := by
    simp [hlstm]
  simp only [process_frame_for_inference]
  rw [if_neg hface', if_neg hlstm']
  refine ⟨_, _, rfl, ?_, ?_, ?_, ?_⟩
  · obtain ⟨heC, _, _, _⟩ :=
      eyesStep_low th cal ((yawnStep th cal
        { s with pausa := (pausaUpdate s.pausa inp.faceDetected inp.poseDetected inp.now).2,
                 distractionFrames := 0 } inp).2) inp hear
    simp only [rubStep_closedEyes, nodStep_closedEyes, heC, yawnStep_closedEyes]
  · obtain ⟨_, heT, _, _⟩ :=
      eyesStep_low th cal ((yawnStep th cal
        { s with pausa := (pausaUpdate s.pausa inp.faceDetected inp.poseDetected inp.now).2,
                 distractionFrames := 0 } inp).2) inp hear
    simp only [rubStep_lastDesp, nodStep_lastDesp, heT, yawnStep_closedEyes,
      yawnStep_lastDesp]
  · obtain ⟨_, _, heD, _⟩ :=
      eyesStep_low th cal ((yawnStep th cal
        { s with pausa := (pausaUpdate s.pausa inp.faceDetected inp.poseDetected inp.now).2,
                 distractionFrames := 0 } inp).2) inp hear
    simp only [yawnStep_closedEyes, yawnStep_lastDesp] at heD
    by_cases hc : (pausaUpdate s.pausa inp.faceDetected inp.poseDetected inp.now).1.1 = true
    · simp [hc, List.mem_append, yawnStep_not_despierta, nodStep_not_despierta,
        rubStep_not_despierta, heD]
    · simp [hc, List.mem_append, yawnStep_not_despierta, nodStep_not_despierta,
        rubStep_not_despierta, heD]
  · obtain ⟨_, _, _, heS⟩ :=
      eyesStep_low th cal ((yawnStep th cal
        { s with pausa := (pausaUpdate s.pausa inp.faceDetected inp.poseDetected inp.now).2,
                 distractionFrames := 0 } inp).2) inp hear
    simp only [yawnStep_closedEyes] at heS
    by_cases hc : (pausaUpdate s.pausa inp.faceDetected inp.poseDetected inp.now).1.1 = true
    · simp [hc, List.mem_append, yawnStep_not_somnolencia, nodStep_not_somnolencia,
        rubStep_not_somnolencia, heS]
    · simp [hc, List.mem_append, yawnStep_not_somnolencia, nodStep_not_somnolencia,
        rubStep_not_somnolencia, heS]

lemma process_step_eyes_high (th : FatigueThresholds) (ncfg : NodConfig)
    (cal : CalibrationData) (s : FatigueState) (inp : FrameInput)
    (hface : inp.faceDetected = true) (hlstm : inp.lstmActive = false)
    (hear : ¬ inp.ear < cal.calEarMean * th.drowsinessEarFactor) :
    ∃ ev s',
      process_frame_for_inference th ncfg (some cal) s inp = .ok (ev, s') ∧
      s'.closedEyesFrames = 0 ∧
      "Somnolencia" ∉ ev ∧ "Despierta" ∉ ev := by
  have hface' : ¬ (inp.faceDetected = false) := by simp [hface]
  have hlstm' : ¬ ((inp.lstmActive && decide (inp.lstmPrediction = some 1)) = true) := by
    simp [hlstm]
  simp only [process_frame_for_inference]
  rw [if_neg hface', if_neg hlstm']
  refine ⟨_, _, rfl, ?_, ?_, ?_⟩
  · rw [rubStep_closedEyes, nodStep_closedEyes,
      eyesStep_high th cal _ inp hear]
  · have he := eyesStep_high th cal ((yawnStep th cal
      { s with pausa := (pausaUpdate s.pausa inp.faceDetected inp.poseDetected inp.now).2,
               distractionFrames := 0 } inp).2) inp hear
    by_cases hc : (pausaUpdate s.pausa inp.faceDetected inp.poseDetected inp.now).1.1 = true
    · simp [hc, List.mem_append, yawnStep_not_somnolencia, nodStep_not_somnolencia,
        rubStep_not_somnolencia, he]
    · simp [hc, List.mem_append, yawnStep_not_somnolencia, nodStep_not_somnolencia,
        rubStep_not_somnolencia, he]
  · have he := eyesStep_high th cal ((yawnStep th cal
      { s with pausa := (pausaUpdate s.pausa inp.faceDetected inp.poseDetected inp.now).2,
               distractionFrames := 0 } inp).2) inp hear
    by_cases hc : (pausaUpdate s.pausa inp.faceDetected inp.poseDetected inp.now).1.1 = true
    · simp [hc, List.mem_append, yawnStep_not_despierta, nodStep_not_despierta,
        rubStep_not_despierta, he]
    · simp [hc, List.mem_append, yawnStep_not_despierta, nodStep_not_despierta,
        rubStep_not_despierta, he]

lemma fatigue_run_low_inv (th : FatigueThresholds) (ncfg : NodConfig)
    (cal : CalibrationData) (p0 : PausaState) (t0 : ℚ) (f : ℕ → FrameInput)
    (hface : ∀ i ≤ th.maxAlertEyesClosedFrames, (f i).faceDetected = true)
    (hlstm : ∀ i ≤ th.maxAlertEyesClosedFrames, (f i).lstmActive = false)
    (hear : ∀ i ≤ th.maxAlertEyesClosedFrames,
      (f i).ear < cal.calEarMean * th.drowsinessEarFactor) :
    ∀ k, k ≤ th.maxAlertEyesClosedFrames →
      ∃ sk, fatigueRunState th ncfg (some cal) (fatigueResetState p0 t0) f k = .ok sk ∧
        sk.closedEyesFrames = k ∧ sk.lastDespiertaAlertTime = 0 := by
  intro k
  induction k with
  | zero => exact fun _ => ⟨_, rfl, rfl, rfl⟩
  | succ k ih =>
      intro hk
      obtain ⟨sk, hrun, hC, hT⟩ := ih (by omega)
      obtain ⟨ev, s', hstep, hC', hT', _, _⟩ :=
        process_step_eyes_low th ncfg cal sk (f k) (hface k (by omega))
          (hlstm k (by omega)) (hear k (by omega))
      refine ⟨s', ?_, ?_, ?_⟩
      · simp only [fatigueRunState, hrun, hstep]
      · rw [hC', hC]
      · rw [hT', hC, hT]
        have hM : ¬ th.maxAlertEyesClosedFrames < k + 1 := by omega
        simp [hM]

/-- C6: from a reset fatigue state with calibration set, a face detected on
every frame and the LSTM classifier inactive, an EAR sequence below the
calibrated eyes-closed threshold for exactly `MAX_ALERT_EYES_CLOSED_FRAMES+1`
consecutive frames emits "Despierta" on exactly one of those frames — the
last one — respecting the 5-second cooldown (wall-clock beyond 5 s of the
reset timestamp 0). -/
theorem despierta_emitted_once (th : FatigueThresholds) (ncfg : NodConfig)
    (cal : CalibrationData) (p0 : PausaState) (t0 : ℚ) (f : ℕ → FrameInput)
    (hface : ∀ i ≤ th.maxAlertEyesClosedFrames, (f i).faceDetected = true)
    (hlstm : ∀ i ≤ th.maxAlertEyesClosedFrames, (f i).lstmActive = false)
    (hear : ∀ i ≤ th.maxAlertEyesClosedFrames,
      (f i).ear < cal.calEarMean * th.drowsinessEarFactor)
    (htime : 5 < (f th.maxAlertEyesClosedFrames).now) :
    ∀ i ≤ th.maxAlertEyesClosedFrames,
      ("Despierta" ∈ fatigueStepEvents th ncfg (some cal)
          (fatigueResetState p0 t0) f i
        ↔ i = th.maxAlertEyesClosedFrames) := by
  intro i hi
  obtain ⟨si, hrun, hC, hT⟩ :=
    fatigue_run_low_inv th ncfg cal p0 t0 f hface hlstm hear i hi
  obtain ⟨ev, s', hstep, _, _, hD, _⟩ :=
    process_step_eyes_low th ncfg cal si (f i) (hface i hi) (hlstm i hi) (hear i hi)
  have hev : fatigueStepEvents th ncfg (some cal) (fatigueResetState p0 t0) f i
      = ev := by
    simp only [fatigueStepEvents, hrun, hstep]
  rw [hev, hD, hC, hT]
  constructor
  · rintro ⟨h1, _⟩; omega
  · rintro rfl
    exact ⟨by omega, by simpa using htime⟩

/-- C6 (witness): default thresholds (`MAX = 60`), calibration means 1, EAR
constantly 1/2 < 3/4, frames at seconds 10, 11, …: the iff holds on each of
the 61 frames. -/
theorem despierta_emitted_once_witness :
    ((∀ i ≤ ({} : FatigueThresholds).maxAlertEyesClosedFrames,
        ((fun i => FrameInput.mk (10 + (i : ℚ)) true false (1/2) 0 none 0 false none) i).faceDetected = true) ∧
     (∀ i ≤ ({} : FatigueThresholds).maxAlertEyesClosedFrames,
        ((fun i => FrameInput.mk (10 + (i : ℚ)) true false (1/2) 0 none 0 false none) i).lstmActive = false) ∧
     (∀ i ≤ ({} : FatigueThresholds).maxAlertEyesClosedFrames,
        ((fun i => FrameInput.mk (10 + (i : ℚ)) true false (1/2) 0 none 0 false none) i).ear
          < (CalibrationData.mk 1 1).calEarMean * ({} : FatigueThresholds).drowsinessEarFactor) ∧
     (5 : ℚ) < ((fun i => FrameInput.mk (10 + (i : ℚ)) true false (1/2) 0 none 0 false none)
        ({} : FatigueThresholds).maxAlertEyesClosedFrames).now) ∧
    (∀ i ≤ ({} : FatigueThresholds).maxAlertEyesClosedFrames,
      ("Despierta" ∈ fatigueStepEvents {} {} (some ⟨1, 1⟩)
          (fatigueResetState (pausaInit 3600 180 0) 0)
          (fun i => FrameInput.mk (10 + (i : ℚ)) true false (1/2) 0 none 0 false none) i
        ↔ i = ({} : FatigueThresholds).maxAlertEyesClosedFrames)) :=
  ⟨⟨fun _ _ => rfl, fun _ _ => rfl, fun _ _ => by norm_num, by norm_num⟩,
    despierta_emitted_once {} {} ⟨1, 1⟩ (pausaInit 3600 180 0) 0
      (fun i => FrameInput.mk (10 + (i : ℚ)) true false (1/2) 0 none 0 false none)
      (fun _ _ => rfl) (fun _ _ => rfl) (fun _ _ => by norm_num) (by norm_num)⟩

/-- C7 (counterexample): with default thresholds, calibration means 1 and EAR
constantly 1/2, the 61st consecutive low-EAR frame has the eyes-closed counter
at 61 — above the lower drowsiness threshold 20 — yet emits no "Somnolencia":
the `elif` routes the frame to the "Despierta" branch instead, so the lower
threshold does not fire on every frame above it. -/
theorem somnolencia_claim_false :
    ("Somnolencia" ∉ fatigueStepEvents {} {} (some ⟨1, 1⟩)
        (fatigueResetState (pausaInit 3600 180 0) 0)
        (fun i => FrameInput.mk (10 + (i : ℚ)) true false (1/2) 0 none 0 false none) 60) ∧
    ("Despierta" ∈ fatigueStepEvents {} {} (some ⟨1, 1⟩)
        (fatigueResetState (pausaInit 3600 180 0) 0)
        (fun i => FrameInput.mk (10 + (i : ℚ)) true false (1/2) 0 none 0 false none) 60) ∧
    ({} : FatigueThresholds).drowsinessEyesClosedFrames < 60 + 1 := by
  obtain ⟨s60, hrun, hC, hT⟩ :=
    fatigue_run_low_inv {} {} ⟨1, 1⟩ (pausaInit 3600 180 0) 0
      (fun i => FrameInput.mk (10 + (i : ℚ)) true false (1/2) 0 none 0 false none)
      (fun _ _ => rfl) (fun _ _ => rfl) (fun _ _ => by norm_num) 60 (by norm_num)
  obtain ⟨ev, s', hstep, _, _, hD, hS⟩ :=
    process_step_eyes_low {} {} ⟨1, 1⟩ s60
      (FrameInput.mk (10 + ((60 : ℕ) : ℚ)) true false (1/2) 0 none 0 false none)
      rfl rfl (by norm_num)
  have hev : fatigueStepEvents {} {} (some ⟨1, 1⟩)
      (fatigueResetState (pausaInit 3600 180 0) 0)
      (fun i => FrameInput.mk (10 + (i : ℚ)) true false (1/2) 0 none 0 false none) 60
      = ev := by
    simp only [fatigueStepEvents, hrun, hstep]
  refine ⟨?_, ?_, by norm_num⟩
  · rw [hev, hS, hC]
    norm_num
  · rw [hev, hD, hC, hT]
    norm_num

/-- C7 (amended): per frame with a face detected and the LSTM inactive —
while EAR is below the calibrated threshold the consecutive counter increments
and "Somnolencia" is emitted exactly on the frames where the counter exceeds
the lower drowsiness threshold *without* exceeding the higher one (no cooldown
gate); on frames where the counter exceeds the higher threshold the branch
emits "Despierta" instead (under the 5 s cooldown) and no "Somnolencia"; the
instant EAR is not below the threshold the counter resets to 0 and neither
event is emitted. -/
theorem eyes_escalation_correct (th : FatigueThresholds) (ncfg : NodConfig)
    (cal : CalibrationData) (s : FatigueState) (inp : FrameInput)
    (hface : inp.faceDetected = true) (hlstm : inp.lstmActive = false) :
    (inp.ear < cal.calEarMean * th.drowsinessEarFactor →
      ∃ ev s',
        process_frame_for_inference th ncfg (some cal) s inp = .ok (ev, s') ∧
        s'.closedEyesFrames = s.closedEyesFrames + 1 ∧
        ("Somnolencia" ∈ ev ↔
          ¬ th.maxAlertEyesClosedFrames < s.closedEyesFrames + 1 ∧
            th.drowsinessEyesClosedFrames < s.closedEyesFrames + 1) ∧
        ("Despierta" ∈ ev ↔
          th.maxAlertEyesClosedFrames < s.closedEyesFrames + 1 ∧
            5 < inp.now - s.lastDespiertaAlertTime)) ∧
    (¬ inp.ear < cal.calEarMean * th.drowsinessEarFactor →
      ∃ ev s',
        process_frame_for_inference th ncfg (some cal) s inp = .ok (ev, s') ∧
        s'.closedEyesFrames = 0 ∧ "Somnolencia" ∉ ev ∧ "Despierta" ∉ ev) := by
  constructor
  · intro hear
    obtain ⟨ev, s', hstep, hC, _, hD, hS⟩ :=
      process_step_eyes_low th ncfg cal s inp hface hlstm hear
    exact ⟨ev, s', hstep, hC, hS, hD⟩
  · intro hear
    exact process_step_eyes_high th ncfg cal s inp hface hlstm hear

/-- C7 (amended, witness): a state 30 frames into eye closure with default
thresholds: the low-EAR case applies with counter 31 (between the two
thresholds). -/
theorem eyes_escalation_correct_witness :
    ((FrameInput.mk 50 true false (1/2) 0 none 0 false none).faceDetected = true) ∧
    ((FrameInput.mk 50 true false (1/2) 0 none 0 false none).lstmActive = false) ∧
    (((FrameInput.mk 50 true false (1/2) 0 none 0 false none).ear
        < (CalibrationData.mk 1 1).calEarMean * ({} : FatigueThresholds).drowsinessEarFactor →
      ∃ ev s',
        process_frame_for_inference {} {} (some ⟨1, 1⟩)
            ⟨0, 30, 0, 0, 0, 0, 0, 0, NodState.initial, pausaInit 10 180 0⟩
            ⟨50, true, false, 1/2, 0, none, 0, false, none⟩ = .ok (ev, s') ∧
        s'.closedEyesFrames =
          (FatigueState.mk 0 30 0 0 0 0 0 0 NodState.initial
            (pausaInit 10 180 0)).closedEyesFrames + 1 ∧
        ("Somnolencia" ∈ ev ↔
          ¬ ({} : FatigueThresholds).maxAlertEyesClosedFrames <
              (FatigueState.mk 0 30 0 0 0 0 0 0 NodState.initial
                (pausaInit 10 180 0)).closedEyesFrames + 1 ∧
            ({} : FatigueThresholds).drowsinessEyesClosedFrames <
              (FatigueState.mk 0 30 0 0 0 0 0 0 NodState.initial
                (pausaInit 10 180 0)).closedEyesFrames + 1) ∧
        ("Despierta" ∈ ev ↔
          ({} : FatigueThresholds).maxAlertEyesClosedFrames <
              (FatigueState.mk 0 30 0 0 0 0 0 0 NodState.initial
                (pausaInit 10 180 0)).closedEyesFrames + 1 ∧
            5 < (FrameInput.mk 50 true false (1/2) 0 none 0 false none).now -
              (FatigueState.mk 0 30 0 0 0 0 0 0 NodState.initial
                (pausaInit 10 180 0)).lastDespiertaAlertTime)) ∧
     (¬ (FrameInput.mk 50 true false (1/2) 0 none 0 false none).ear
        < (CalibrationData.mk 1 1).calEarMean * ({} : FatigueThresholds).drowsinessEarFactor →
      ∃ ev s',
        process_frame_for_inference {} {} (some ⟨1, 1⟩)
            ⟨0, 30, 0, 0, 0, 0, 0, 0, NodState.initial, pausaInit 10 180 0⟩
            ⟨50, true, false, 1/2, 0, none, 0, false, none⟩ = .ok (ev, s') ∧
        s'.closedEyesFrames = 0 ∧ "Somnolencia" ∉ ev ∧ "Despierta" ∉ ev)) :=
  ⟨rfl, rfl,
    eyes_escalation_correct {} {} ⟨1, 1⟩
      ⟨0, 30, 0, 0, 0, 0, 0, 0, NodState.initial, pausaInit 10 180 0⟩
      ⟨50, true, false, 1/2, 0, none, 0, false, none⟩ rfl rfl⟩

/-! ### Active-pause handler (C8) -/

lemma pausaUpdate_present (s : PausaState) (b t : ℚ) (fd pd : Bool)
    (hp : (fd || pd) = true) (hwd : 0 < s.workDuration) (hInv : PausaInv b s) :
    ((pausaUpdate s fd pd t).1.1 = decide (s.workDuration ≤ t - b)) ∧
    (pausaUpdate s fd pd t).2.workDuration = s.workDuration ∧
    PausaInv (if s.workDuration ≤ t - b then t else b) (pausaUpdate s fd pd t).2 ∧
    (s.workDuration ≤ t - b →
      (pausaUpdate s fd pd t).2.elapsedWorkTime = 0 ∧
      (pausaUpdate s fd pd t).2.pauseStartTime = none) := by
  obtain ⟨hE, hP⟩ := hInv
  have hE' : s.elapsedWorkTime + (t - s.lastUpdateTime) = t - b := by
    rw [hE]; ring
  by_cases hcond : s.workDuration ≤ t - b
  · have hgate : s.workDuration * (19/20) < t - b := by linarith
    rcases hP with hP | hP <;> by_cases hip : s.isPaused = true <;>
      simp [pausaUpdate, pausaReset, PausaInv, hp, hip, hE', hcond, hP, hgate,
        decide_eq_true hcond]
  · rcases hP with hP | hP <;> by_cases hip : s.isPaused = true <;>
      simp [pausaUpdate, pausaReset, PausaInv, hp, hip, hE', hcond, hP,
        decide_eq_false hcond]

lemma pausaRunPresent_spec (wd : ℚ) (hwd : 0 < wd) :
    ∀ (times : List ℚ) (s : PausaState) (b : ℚ),
      s.workDuration = wd → PausaInv b s →
      ((pausaRunPresent s times).map Prod.fst = pausaSpecAlerts wd b times ∧
       ∀ p ∈ pausaRunPresent s times, p.1 = true →
         p.2.elapsedWorkTime = 0 ∧ p.2.pauseStartTime = none) := by
  intro times
  induction times with
  | nil =>
      intro s b _ _
      exact ⟨rfl, by simp [pausaRunPresent]⟩
  | cons t ts ih =>
      intro s b hswd hInv
      obtain ⟨hA, hW, hInv', hReset⟩ :=
        pausaUpdate_present s b t true false rfl (hswd ▸ hwd) hInv
      by_cases hcond : wd ≤ t - b
  -- alert fires at this update; the cycle rebases at t
      · have hcond' : s.workDuration ≤ t - b := by rw [hswd]; exact hcond
        have hA' : (pausaUpdate s true false t).1.1 = true := by
          rw [hA]; exact decide_eq_true hcond'
        rw [if_pos hcond'] at hInv'
        obtain ⟨ihm, ihr⟩ := ih (pausaUpdate s true false t).2 t
          (by rw [hW, hswd]) hInv'
        constructor
        · simp only [pausaRunPresent, List.map_cons, hA', pausaSpecAlerts,
            if_pos hcond, ihm]
        · intro p hp hpt
          rcases List.mem_cons.mp hp with rfl | hptail
          · exact hReset hcond'
          · exact ihr p hptail hpt
      · have hcond' : ¬ s.workDuration ≤ t - b := by rw [hswd]; exact hcond
        have hA' : (pausaUpdate s true false t).1.1 = false := by
          rw [hA]; exact decide_eq_false hcond'
        rw [if_neg hcond'] at hInv'
        obtain ⟨ihm, ihr⟩ := ih (pausaUpdate s true false t).2 b
          (by rw [hW, hswd]) hInv'
        constructor
        · simp only [pausaRunPresent, List.map_cons, hA', pausaSpecAlerts,
            if_neg hcond, ihm]
        · intro p hp hpt
          rcases List.mem_cons.mp hp with rfl | hptail
          · rw [hA'] at hpt; cases hpt
          · exact ihr p hptail hpt

lemma pausaAbsorbing :
    ∀ (times : List ℚ) (s : PausaState),
      s.elapsedWorkTime = 0 → s.isPaused = true → s.pauseStartTime = none →
      (pausaRunAbsent s times).elapsedWorkTime = 0 := by
  intro times
  induction times with
  | nil => intro s h _ _; exact h
  | cons t ts ih =>
      intro s hE hPau hPS
      have hstep : (pausaUpdate s false false t).2.elapsedWorkTime = 0 ∧
          (pausaUpdate s false false t).2.isPaused = true ∧
          (pausaUpdate s false false t).2.pauseStartTime = none := by
        simp [pausaUpdate, hPau, hPS, hE]
      exact ih _ hstep.1 hstep.2.1 hstep.2.2

lemma pausaAbsentReset :
    ∀ (rest : List ℚ) (s : PausaState) (t1 : ℚ),
      s.isPaused = true → s.pauseStartTime = some t1 →
      (∃ tc ∈ rest, s.resetThreshold < tc - t1) →
      (pausaRunAbsent s rest).elapsedWorkTime = 0 := by
  intro rest
  induction rest with
  | nil =>
      rintro s t1 _ _ ⟨tc, htc, _⟩
      exact absurd htc (List.not_mem_nil tc)
  | cons t ts ih =>
      rintro s t1 hPau hPS ⟨tc, htc, hcross⟩
      by_cases hr : s.resetThreshold < t - t1
      · have hstep : (pausaUpdate s false false t).2.elapsedWorkTime = 0 ∧
            (pausaUpdate s false false t).2.isPaused = true ∧
            (pausaUpdate s false false t).2.pauseStartTime = none := by
          simp [pausaUpdate, pausaReset, hPau, hPS, hr]
        exact pausaAbsorbing ts _ hstep.1 hstep.2.1 hstep.2.2
      · have hstep : (pausaUpdate s false false t).2.isPaused = true ∧
            (pausaUpdate s false false t).2.pauseStartTime = some t1 ∧
            (pausaUpdate s false false t).2.resetThreshold = s.resetThreshold := by
          simp [pausaUpdate, hPau, hPS, hr]
        rcases List.mem_cons.mp htc with rfl | htc'
        · exact absurd hcross hr
        · exact ih _ t1 hstep.1 hstep.2.1
            ⟨tc, htc', by rw [hstep.2.2]; exact hcross⟩

lemma pausaRemaining_nonneg (s : PausaState) (fd pd : Bool) (t : ℚ) :
    0 ≤ (pausaUpdate s fd pd t).1.2 := by
  simp only [pausaUpdate]
  repeat' split
  all_goals exact Int.floor_nonneg.mpr (le_max_left 0 _)

/-- C8: for a handler configured with `work_duration = 10`: (1) with the user
present on every update, the alert pattern is exactly "once per 10-second work
cycle" (`pausaSpecAlerts`: an alert exactly when 10 s of the cycle — based at
the start or the previous alert — have accumulated, the cycle rebasing at each
alert), and at every alert the work counter and pause timer are reset; (2)
with the user absent continuously, once some later absent update falls more
than `reset_threshold` seconds after the first absent update, the elapsed work
time is reset to 0 mid-cycle; (3) every update returns a non-negative
seconds-remaining value, whether or not an alert fired. -/
theorem pausa_activa_correct :
    (∀ (rt t0 : ℚ) (times : List ℚ),
      (pausaRunPresent (pausaInit 10 rt t0) times).map Prod.fst
          = pausaSpecAlerts 10 t0 times ∧
      ∀ p ∈ pausaRunPresent (pausaInit 10 rt t0) times, p.1 = true →
        p.2.elapsedWorkTime = 0 ∧ p.2.pauseStartTime = none) ∧
    (∀ (s : PausaState) (t1 : ℚ) (rest : List ℚ),
      s.isPaused = false → 0 ≤ s.resetThreshold →
      (∃ tc ∈ rest, s.resetThreshold < tc - t1) →
      (pausaRunAbsent s (t1 :: rest)).elapsedWorkTime = 0) ∧
    (∀ (s : PausaState) (fd pd : Bool) (t : ℚ), 0 ≤ (pausaUpdate s fd pd t).1.2) := by
  refine ⟨?_, ?_, pausaRemaining_nonneg⟩
  · intro rt t0 times
    exact pausaRunPresent_spec 10 (by norm_num) times (pausaInit 10 rt t0) t0 rfl
      ⟨by simp [pausaInit], Or.inl rfl⟩
  · intro s t1 rest hPau hrt hcross
    have hr0 : ¬ (s.resetThreshold < (0 : ℚ)) := not_lt_of_le hrt
    have hstate : (pausaUpdate s false false t1).2.isPaused = true ∧
        (pausaUpdate s false false t1).2.pauseStartTime = some t1 ∧
        (pausaUpdate s false false t1).2.resetThreshold = s.resetThreshold := by
      simp [pausaUpdate, hPau, hr0]
    show (pausaRunAbsent (pausaUpdate s false false t1).2 rest).elapsedWorkTime = 0
    obtain ⟨tc, htc, hc⟩ := hcross
    exact pausaAbsentReset rest _ t1 hstate.1 hstate.2.1
      ⟨tc, htc, by rw [hstate.2.2]; exact hc⟩

/-- C8 (witness): with updates at 4 s, 8 s, 12 s the present-run alert pattern
is `[false, false, true]`; an absence from 5 s to 200 s (> 180 s threshold)
resets a 7 s-elapsed cycle to 0; a concrete update returns a non-negative
remainder. -/
theorem pausa_activa_correct_witness :
    ((pausaRunPresent (pausaInit 10 180 0) [4, 8, 12]).map Prod.fst
        = pausaSpecAlerts 10 0 [4, 8, 12] ∧
     ∀ p ∈ pausaRunPresent (pausaInit 10 180 0) [4, 8, 12], p.1 = true →
       p.2.elapsedWorkTime = 0 ∧ p.2.pauseStartTime = none) ∧
    ((PausaState.mk 10 180 7 false none 0 none).isPaused = false ∧
     (0 : ℚ) ≤ (PausaState.mk 10 180 7 false none 0 none).resetThreshold ∧
     (∃ tc ∈ [(200 : ℚ)],
        (PausaState.mk 10 180 7 false none 0 none).resetThreshold < tc - 5) ∧
     (pausaRunAbsent ⟨10, 180, 7, false, none, 0, none⟩ (5 :: [200])).elapsedWorkTime
        = 0) ∧
    (0 ≤ (pausaUpdate ⟨10, 180, 7, false, none, 0, none⟩ true false 3).1.2) :=
  ⟨pausa_activa_correct.1 180 0 [4, 8, 12],
   ⟨rfl, by norm_num,
    ⟨200, by simp, by norm_num⟩,
    pausa_activa_correct.2.1 ⟨10, 180, 7, false, none, 0, none⟩ 5 [200] rfl
      (by norm_num) ⟨200, by simp, by norm_num⟩⟩,
   pausa_activa_correct.2.2 ⟨10, 180, 7, false, none, 0, none⟩ true false 3⟩

/-! ### Facial-metric guards (C9) -/

/-- C9 (counterexample): with all landmarks coincident (and any square root /
π values), the EAR and PUC guards fire and default those metrics to 0 — but
MAR, whose denominator `‖lm[0]-lm[17]‖` has **no** guard, is an unguarded
division by zero (numpy: a non-finite `inf`/`nan`), and MOE inherits it.  So
it is false that every near-zero denominator in the four ratio formulas is
guarded. -/
theorem metrics_claim_false :
    (calculate_facial_metrics 3 (fun _ => 0) ⟨478, fun _ => (0, 0)⟩ none).mar = none ∧
    (calculate_facial_metrics 3 (fun _ => 0) ⟨478, fun _ => (0, 0)⟩ none).moe = none ∧
    (calculate_facial_metrics 3 (fun _ => 0) ⟨478, fun _ => (0, 0)⟩ none).ear = 0 ∧
    (calculate_facial_metrics 3 (fun _ => 0) ⟨478, fun _ => (0, 0)⟩ none).puc = 0 := by
  refine ⟨?_, ?_, ?_, ?_⟩ <;>
    norm_num [calculate_facial_metrics, eye_aspect_ratio, calculate_circularity,
      distQ, npDivide, eps6]

/-- C9 (amended): the EAR, PUC and MOE guards hold exactly as the claim
describes them, for every landmark configuration and every instantiation of
the opaque numeric primitives: a per-eye ratio is 0 when its horizontal
distance is not above `1e-6`; a circularity is 0 when either radius is
degenerate (and PUC is 0 when the iris landmarks are missing or both
circularities are 0); MOE falls back instead of dividing when its denominator
is not above `1e-6` (raw and calibrated forms).  MAR, however, is *not*
guarded: a zero denominator yields a non-finite value rather than a default. -/
theorem metrics_guards_correct (piQ : ℚ) (sq : ℚ → ℚ) (lm : Landmarks) :
    (∀ e0 e1 e2 e3 e4 e5 : ℚ × ℚ, ¬ (eps6 < distQ sq e0 e3) →
      eye_aspect_ratio sq e0 e1 e2 e3 e4 e5 = 0) ∧
    (∀ i1 i2 i3 i4 : ℚ × ℚ,
      (distQ sq i2 i4 / 2 < eps6 ∨ distQ sq i1 i3 / 2 < eps6) →
      calculate_circularity piQ sq i1 i2 i3 i4 = 0) ∧
    (∀ cal, lm.count ≤ 477 → (calculate_facial_metrics piQ sq lm cal).puc = 0) ∧
    (∀ cal, 477 < lm.count →
      calculate_circularity piQ sq (lm.pt 474) (lm.pt 475) (lm.pt 476) (lm.pt 477) = 0 →
      calculate_circularity piQ sq (lm.pt 469) (lm.pt 470) (lm.pt 471) (lm.pt 472) = 0 →
      (calculate_facial_metrics piQ sq lm cal).puc = 0) ∧
    (¬ (eps6 < (calculate_facial_metrics piQ sq lm none).ear) →
      (calculate_facial_metrics piQ sq lm none).moe
        = (calculate_facial_metrics piQ sq lm none).mar) ∧
    (∀ c : CalibrationData,
      ¬ (eps6 < (if decide (eps6 < c.calEarMean)
            then (calculate_facial_metrics piQ sq lm (some c)).ear / c.calEarMean
            else 1)) →
      (calculate_facial_metrics piQ sq lm (some c)).moe
        = (if decide (eps6 < c.calMarMean)
            then ((calculate_facial_metrics piQ sq lm (some c)).mar).map
              (· / c.calMarMean)
            else some 1)) ∧
    (∀ cal, distQ sq (lm.pt 0) (lm.pt 17) = 0 →
      (calculate_facial_metrics piQ sq lm cal).mar = none) := by
  refine ⟨?_, ?_, ?_, ?_, ?_, ?_, ?_⟩
  · intro e0 e1 e2 e3 e4 e5 h
    simp only [eye_aspect_ratio]
    rw [if_neg (by simpa using h)]
  · intro i1 i2 i3 i4 h
    rcases h with h | h
    · simp only [calculate_circularity]
      rw [if_pos ((Bool.or_eq_true _ _).mpr (Or.inl (decide_eq_true h)))]
    · simp only [calculate_circularity]
      rw [if_pos ((Bool.or_eq_true _ _).mpr (Or.inr (decide_eq_true h)))]
  · intro cal h
    simp [calculate_facial_metrics, h]
  · intro cal hcount hpr hpl
    have hn : ¬ lm.count ≤ 477 := by omega
    simp [calculate_facial_metrics, hn, hpr, hpl]
  · intro h
    simp only [calculate_facial_metrics] at h ⊢
    cases npDivide (distQ sq (lm.pt 61) (lm.pt 291))
        (distQ sq (lm.pt 0) (lm.pt 17)) with
    | none => rfl
    | some m => exact congrArg some (if_neg (by simpa using h))
  · intro c h
    simp only [calculate_facial_metrics] at h ⊢
    by_cases hc : eps6 < c.calMarMean
    · cases npDivide (distQ sq (lm.pt 61) (lm.pt 291))
          (distQ sq (lm.pt 0) (lm.pt 17)) with
      | none => simp [hc]
      | some m =>
          simp [hc]
          intro hx
          exact absurd hx (by simpa using h)
    · simp [hc]
      intro hx
      exact absurd hx (by simpa using h)
  · intro cal h
    simp [calculate_facial_metrics, npDivide, h]

/-- C9 (witness): coincident landmarks with the zero square-root model: the
EAR guard yields 0, missing iris landmarks (count 468) give PUC 0, and the
unguarded MAR is non-finite at 478 landmarks. -/
theorem metrics_guards_correct_witness :
    (¬ (eps6 < distQ (fun _ => 0) (0, 0) (0, 0))) ∧
    eye_aspect_ratio (fun _ => 0) (0, 0) (0, 0) (0, 0) (0, 0) (0, 0) (0, 0) = 0 ∧
    (calculate_facial_metrics 3 (fun _ => 0) ⟨468, fun _ => (0, 0)⟩ none).puc = 0 ∧
    (calculate_facial_metrics 3 (fun _ => 0) ⟨478, fun _ => (0, 0)⟩ none).mar = none :=
  ⟨by norm_num [distQ, eps6],
   (metrics_guards_correct 3 (fun _ => 0) ⟨478, fun _ => (0, 0)⟩).1
     (0, 0) (0, 0) (0, 0) (0, 0) (0, 0) (0, 0) (by norm_num [distQ, eps6]),
   (metrics_guards_correct 3 (fun _ => 0) ⟨468, fun _ => (0, 0)⟩).2.2.1 none
     (by norm_num),
   (metrics_guards_correct 3 (fun _ => 0) ⟨478, fun _ => (0, 0)⟩).2.2.2.2.2.2 none
     (by norm_num [distQ, eps6])⟩

end Spec2Proof
